import Mathlib

/-!
Verification of the ResearchAutomator research-execution pipeline.

Shallow embedding of the phase planner/scheduler (`modules/planner.py`,
`modules/execution_agent.py`), the quality reviewer (`modules/self_critique.py`),
the rate limiter (`modules/rate_limiter.py`), the goal parser
(`modules/goal_parser.py`), the emergency-mode extractor
(`modules/emergency_mode.py`) and the citation engine
(`modules/citation_engine.py`).  Scores and delays (Python floats) are modelled
as rationals; Python dicts with fixed key sets become structures; collaborator
calls (LLM, retriever, database) become explicit oracles, with `Except` for
calls that may raise.
-/

set_option maxRecDepth 4000

namespace ResearchAutomator

/-! ### Planner (`modules/planner.py`)

`Phase` models the phase dicts produced by the planner: every phase dict built
by `_manual_parse_plan` / `_create_fallback_plan` / `_apply_plan_updates`
carries the keys below, so `phase.get('id', '')` etc. are total field reads. -/

structure Phase where
  id : String
  title : String
  description : String
  search_terms : List String
  expected_sources : List String
  dependencies : List String
  deriving Repr, DecidableEq

structure Plan where
  plan_id : String
  research_goal : String
  phases : List Phase
  deriving Repr, DecidableEq

/-- `Planner.get_next_phase` (planner.py lines 92-119): scan `plan['phases']`
in order; skip a phase whose id is already completed; return the first
remaining phase all of whose dependencies are completed; otherwise `None`. -/
def getNextPhase (plan : Plan) (completedPhases : List String) : Option Phase :=
  go plan.phases
where
  go : List Phase → Option Phase
  | [] => none
  | phase :: rest =>
    if completedPhases.contains phase.id then go rest
    else if phase.dependencies.all (fun dep => completedPhases.contains dep) then some phase
    else go rest

/-- Spec-side eligibility predicate: the phase id is not in the completed set
and every dependency id is. -/
def eligiblePhase (completedPhases : List String) (phase : Phase) : Bool :=
  !(completedPhases.contains phase.id) &&
    phase.dependencies.all (fun dep => completedPhases.contains dep)

theorem contains_iff_mem {a : String} {l : List String} :
    l.contains a = true ↔ a ∈ l := List.elem_iff

theorem getNextPhase_go_eq_find (completed : List String) (phases : List Phase) :
    getNextPhase.go completed phases = phases.find? (eligiblePhase completed) := by
  induction phases with
  | nil => rfl
  | cons p rest ih =>
    simp only [getNextPhase.go, List.find?, eligiblePhase]
    cases hid : completed.contains p.id with
    | true => simpa using ih
    | false =>
      cases hdep : p.dependencies.all (fun dep => completed.contains dep) with
      | true => simp
      | false => simpa using ih

theorem getNextPhase_eq_find (plan : Plan) (completed : List String) :
    getNextPhase plan completed = plan.phases.find? (eligiblePhase completed) :=
  getNextPhase_go_eq_find completed plan.phases

/-- C1: `Planner.get_next_phase` returns exactly the first phase in plan-list
order whose id is not completed and whose dependencies are all completed
(`List.find?` of the eligibility predicate), hence is deterministic in
`(plan, completed)`; whenever it returns a phase, that phase's id is not in
the completed set and every one of its dependency ids is; and it returns
`none` exactly when no phase of the plan is eligible. -/
theorem C1_get_next_phase_first_eligible (plan : Plan) (completed : List String) :
    getNextPhase plan completed = plan.phases.find? (eligiblePhase completed)
    ∧ (∀ p, getNextPhase plan completed = some p →
        ¬ p.id ∈ completed ∧ ∀ d ∈ p.dependencies, d ∈ completed)
    ∧ (getNextPhase plan completed = none ↔
        ∀ p ∈ plan.phases, eligiblePhase completed p = false) := by
  refine ⟨getNextPhase_eq_find plan completed, ?_, ?_⟩
  · intro p hp
    rw [getNextPhase_eq_find] at hp
    have helig := List.find?_some hp
    rw [eligiblePhase, Bool.and_eq_true, Bool.not_eq_true'] at helig
    obtain ⟨h1, h2⟩ := helig
    constructor
    · intro hmem
      rw [contains_iff_mem.mpr hmem] at h1
      exact absurd h1 (by decide)
    · intro d hd
      exact contains_iff_mem.mp ((List.all_eq_true.mp h2) d hd)
  · rw [getNextPhase_eq_find, List.find?_eq_none]
    constructor
    · intro h p hp
      exact Bool.eq_false_iff.mpr (h p hp)
    · intro h p hp
      simp [h p hp]

/-- Concrete two-phase plan used to witness C1: the first phase is already
completed, the second depends on it. -/
def c1SamplePhaseB : Phase :=
  { id := "phase_2", title := "B", description := "B",
    search_terms := ["b"], expected_sources := ["web"], dependencies := ["phase_1"] }

def c1SamplePlan : Plan :=
  { plan_id := "p", research_goal := "g",
    phases := [
      { id := "phase_1", title := "A", description := "A",
        search_terms := ["a"], expected_sources := ["web"], dependencies := [] },
      c1SamplePhaseB] }

/-- Witness for C1 at a concrete plan: two phases, the first completed, the
second dependent on it; the selection returns the second phase, whose id is
uncompleted and whose dependency `"phase_1"` is in the completed set. -/
theorem C1_get_next_phase_first_eligible_witness :
    getNextPhase c1SamplePlan ["phase_1"] = some c1SamplePhaseB
    ∧ ¬ c1SamplePhaseB.id ∈ ["phase_1"]
    ∧ ∀ d ∈ c1SamplePhaseB.dependencies, d ∈ ["phase_1"] := by
  have h := C1_get_next_phase_first_eligible c1SamplePlan ["phase_1"]
  have hsel : getNextPhase c1SamplePlan ["phase_1"] = some c1SamplePhaseB := by
    rw [h.1]; decide
  exact ⟨hsel, (h.2.1 c1SamplePhaseB hsel).1, (h.2.1 c1SamplePhaseB hsel).2⟩

/-! ### String utilities

Models of the Python string operations used by the modules: `in` (substring
test), `.lower()`, `.strip()`, whitespace collapsing, and the word regex
`\b[a-zA-Z]{3,}\b`.  All inputs relevant to the claims are ASCII; `\w` is
modelled as `[a-zA-Z0-9_]` and `\s`/`str.strip` by `Char.isWhitespace`. -/

/-- `cs` begins with `pat`. -/
def startsWithList : List Char → List Char → Bool
  | [], _ => true
  | _ :: _, [] => false
  | p :: ps, c :: cs => p == c && startsWithList ps cs

/-- `pat` occurs somewhere in `cs` (Python `pat in s`). -/
def containsSub : List Char → List Char → Bool
  | pat, [] => pat.isEmpty
  | pat, c :: cs => startsWithList pat (c :: cs) || containsSub pat cs

/-- Python `pat in s`. -/
def strContains (s pat : String) : Bool := containsSub pat.toList s.toList

/-- Python `str.lower()` (ASCII). -/
def pyToLower (s : String) : String := ⟨s.toList.map Char.toLower⟩

/-- Python `str.split('\\n')`: split on every newline, keeping empty pieces
(`acc` holds the reversed current piece). -/
def splitLinesAux (acc : List Char) : List Char → List String
  | [] => [⟨acc.reverse⟩]
  | c :: cs =>
    if c = '\n' then ⟨acc.reverse⟩ :: splitLinesAux [] cs
    else splitLinesAux (c :: acc) cs

def pySplitLines (s : String) : List String := splitLinesAux [] s.toList

def stripChars (cs : List Char) : List Char :=
  ((cs.dropWhile Char.isWhitespace).reverse.dropWhile Char.isWhitespace).reverse

/-- Python `str.strip()`. -/
def pyStrip (s : String) : String := ⟨stripChars s.toList⟩

/-- Python `\w` on ASCII text. -/
def isWordChar (c : Char) : Bool := c.isAlpha || c.isDigit || c == '_'

/-- Maximal runs of word characters, in order (`acc` holds the reversed
current run). -/
def wordRunsAux (acc : List Char) : List Char → List (List Char)
  | [] => if acc.isEmpty then [] else [acc.reverse]
  | c :: cs =>
    if isWordChar c then wordRunsAux (c :: acc) cs
    else if acc.isEmpty then wordRunsAux [] cs
    else acc.reverse :: wordRunsAux [] cs

/-- `re.findall(r'\b[a-zA-Z]{3,}\b', text)`: the maximal word-character runs
that consist purely of letters and have length at least 3 (a run touching a
digit or underscore has no word boundary inside it, so it only matches when
taken whole and all-alphabetic). -/
def regexWords (s : String) : List String :=
  ((wordRunsAux [] s.toList).filter
    (fun r => r.all Char.isAlpha && decide (r.length ≥ 3))).map List.asString

/-- Python `list(dict.fromkeys(xs))`: deduplicate keeping first occurrences. -/
def dedupKeepFirstAux (seen : List String) : List String → List String
  | [] => []
  | x :: xs =>
    if seen.contains x then dedupKeepFirstAux seen xs
    else x :: dedupKeepFirstAux (x :: seen) xs

def dedupKeepFirst (xs : List String) : List String := dedupKeepFirstAux [] xs

/-- Python `sep.join(parts)`. -/
def joinWith (sep : String) : List String → String
  | [] => ""
  | [p] => p
  | p :: q :: rest => p ++ sep ++ joinWith sep (q :: rest)

/-- Stable insertion keeping earlier-listed elements before later equal ones,
matching the stability guarantee of Python `sorted`. -/
def insertSorted (le : α → α → Bool) (x : α) : List α → List α
  | [] => [x]
  | y :: ys => if le x y then x :: y :: ys else y :: insertSorted le x ys

/-- Python `sorted(xs, key=...)` (stable). -/
def stableSort (le : α → α → Bool) : List α → List α
  | [] => []
  | x :: xs => insertSorted le x (stableSort le xs)

/-! ### Findings and citations (data model)

`Finding` models the finding dicts built in
`ExecutionAgent._execute_single_phase`; `Citation` models the citation dicts
built by `CitationEngine._parse_citation_response` / `_create_basic_citation`
(`type` is renamed `ctype`; keys absent from some citation variants default
to `""`/`[]`).  Relevance scores (Python floats) are rationals. -/

structure Finding where
  source_title : String
  source_url : String
  key_findings : List String
  relevant_facts : List String
  statistics : List String
  conclusions : List String
  relevance_score : ℚ
  phase_id : String
  deriving Repr, DecidableEq

structure Citation where
  ctype : String := "source"
  title : String := ""
  url : String := ""
  authors : List String := []
  date : String := ""
  source_type : String := "web"
  content : String := ""
  context : String := ""
  quote : String := ""
  page_section : String := ""
  deriving Repr, DecidableEq

/-! ### Quality reviewer (`modules/self_critique.py`) -/

/-- The `research_content` dict assembled by
`ExecutionAgent._final_quality_check` (lines 343-349). -/
structure ResearchContent where
  goal : String
  findings : List Finding
  citations : List Citation
  phases_completed : Nat
  deriving Repr

/-- Number of distinct `source_title` values
(`len(set(f.get('source_title','') for f in findings))`). -/
def uniqueSourceCount (findings : List Finding) : Nat :=
  ((findings.map (fun f => f.source_title)).dedup).length

/-- `SelfCritique._review_content_quality` (lines 409-436), `score` field. -/
def reviewContentQuality (findings : List Finding) : ℚ :=
  if findings.isEmpty then 0
  else
    let total : ℚ := findings.length
    let quantityScore := min 1 (total / 20)
    let diversityScore := min 1 ((uniqueSourceCount findings : ℚ) / 10)
    let avgRelevance := (findings.map (fun f => f.relevance_score)).sum / total
    quantityScore * (3/10) + diversityScore * (3/10) + avgRelevance * (4/10)

/-- `SelfCritique._review_citation_quality` (lines 438-460), `score` field:
fraction of citations having both a non-empty title and a non-empty url. -/
def reviewCitationQuality (citations : List Citation) : ℚ :=
  if citations.isEmpty then 0
  else
    ((citations.filter (fun c => c.title ≠ "" && c.url ≠ "")).length : ℚ) /
      (citations.length : ℚ)

/-- `SelfCritique._assess_research_coverage` (lines 462-479), `score` field. -/
def assessResearchCoverage (goal : String) (findings : List Finding) : ℚ :=
  if goal = "" ∨ findings.isEmpty then 0
  else
    let highRel : ℚ := (findings.filter (fun f => f.relevance_score > 7/10)).length
    min 1 (highRel / max 1 (findings.length : ℚ))

/-- `SelfCritique._review_methodology` (lines 481-492), `score` field. -/
def reviewMethodology (phasesCompleted : Nat) : ℚ :=
  min 1 ((phasesCompleted : ℚ) / 5)

/-- `SelfCritique._calculate_overall_quality_score` (lines 494-505). -/
def calculateOverallQualityScore (content citation coverage methodology : ℚ) : ℚ :=
  content * (4/10) + citation * (2/10) + coverage * (3/10) + methodology * (1/10)

/-- `SelfCritique._assign_quality_grade` (lines 526-537). -/
def assignQualityGrade (score : ℚ) : String :=
  if 9/10 ≤ score then "A"
  else if 8/10 ≤ score then "B"
  else if 7/10 ≤ score then "C"
  else if 6/10 ≤ score then "D"
  else "F"

/-- The fields of the final-review result relevant to the claims. -/
structure QualityAssessment where
  overall_score : ℚ
  quality_grade : String
  approval_status : String
  deriving Repr

/-- `SelfCritique.final_quality_review` (lines 125-169), success path: the
four sub-reviews never raise in this model, so the fallback branch
(lines 171-178) is unreachable. -/
def finalQualityReview (rc : ResearchContent) : QualityAssessment :=
  let contentQuality := reviewContentQuality rc.findings
  let citationQuality := reviewCitationQuality rc.citations
  let coverage := assessResearchCoverage rc.goal rc.findings
  let methodology := reviewMethodology rc.phases_completed
  let overall :=
    calculateOverallQualityScore contentQuality citationQuality coverage methodology
  { overall_score := overall,
    quality_grade := assignQualityGrade overall,
    approval_status := if 7/10 ≤ overall then "approved" else "needs_revision" }

/-- C4: the grade assignment is a total function of the score with the
boundaries 0.9/0.8/0.7/0.6 mapping to A/B/C/D and everything below 0.6 to F,
each boundary value getting the higher grade (0.7 ↦ C); and the final
review's `approval_status` is `"approved"` iff its `overall_score ≥ 0.7`,
and `"needs_revision"` otherwise. -/
theorem C4_grade_mapping_and_approval :
    (∀ score : ℚ,
      (9/10 ≤ score → assignQualityGrade score = "A")
      ∧ (8/10 ≤ score ∧ score < 9/10 → assignQualityGrade score = "B")
      ∧ (7/10 ≤ score ∧ score < 8/10 → assignQualityGrade score = "C")
      ∧ (6/10 ≤ score ∧ score < 7/10 → assignQualityGrade score = "D")
      ∧ (score < 6/10 → assignQualityGrade score = "F"))
    ∧ assignQualityGrade (7/10) = "C"
    ∧ ∀ rc : ResearchContent,
        (((finalQualityReview rc).approval_status = "approved"
          ↔ 7/10 ≤ (finalQualityReview rc).overall_score)
        ∧ ((finalQualityReview rc).approval_status = "approved"
          ∨ (finalQualityReview rc).approval_status = "needs_revision")) := by
  refine ⟨?_, by norm_num [assignQualityGrade], ?_⟩
  · intro score
    refine ⟨fun h => ?_, fun h => ?_, fun h => ?_, fun h => ?_, fun h => ?_⟩
    · rw [assignQualityGrade, if_pos h]
    · rw [assignQualityGrade, if_neg (by linarith), if_pos h.1]
    · rw [assignQualityGrade, if_neg (by linarith), if_neg (by linarith), if_pos h.1]
    · rw [assignQualityGrade, if_neg (by linarith), if_neg (by linarith),
        if_neg (by linarith), if_pos h.1]
    · rw [assignQualityGrade, if_neg (by linarith), if_neg (by linarith),
        if_neg (by linarith), if_neg (by linarith)]
  · intro rc
    constructor
    · show (if (7:ℚ)/10 ≤ _ then "approved" else "needs_revision") = "approved" ↔ _
      by_cases h : (7:ℚ)/10 ≤ (finalQualityReview rc).overall_score
      · simp only [finalQualityReview] at h ⊢
        rw [if_pos h]
        exact iff_of_true rfl h
      · simp only [finalQualityReview] at h ⊢
        rw [if_neg h]
        exact iff_of_false (by decide) h
    · by_cases h : (7:ℚ)/10 ≤ (finalQualityReview rc).overall_score
      · refine Or.inl ?_
        show (if (7:ℚ)/10 ≤ _ then "approved" else "needs_revision") = "approved"
        simp only [finalQualityReview] at h ⊢
        rw [if_pos h]
      · refine Or.inr ?_
        show (if (7:ℚ)/10 ≤ _ then "approved" else "needs_revision") = "needs_revision"
        simp only [finalQualityReview] at h ⊢
        rw [if_neg h]

/-- Witness for C4: the B band at score 0.85, the boundary 0.7 ↦ C, and a
concrete research content whose final review is approved with score ≥ 0.7. -/
theorem C4_grade_mapping_and_approval_witness :
    assignQualityGrade (85/100) = "B"
    ∧ assignQualityGrade (7/10) = "C"
    ∧ ((finalQualityReview
          { goal := "g",
            findings := [
              { source_title := "s", source_url := "u", key_findings := ["k"],
                relevant_facts := [], statistics := [], conclusions := [],
                relevance_score := 1, phase_id := "phase_1" }],
            citations := [{ title := "t", url := "u" }],
            phases_completed := 5 }).approval_status = "approved"
        ↔ 7/10 ≤ (finalQualityReview
          { goal := "g",
            findings := [
              { source_title := "s", source_url := "u", key_findings := ["k"],
                relevant_facts := [], statistics := [], conclusions := [],
                relevance_score := 1, phase_id := "phase_1" }],
            citations := [{ title := "t", url := "u" }],
            phases_completed := 5 }).overall_score) := by
  refine ⟨(C4_grade_mapping_and_approval.1 (85/100)).2.1 (by norm_num), ?_, ?_⟩
  · exact C4_grade_mapping_and_approval.2.1
  · exact (C4_grade_mapping_and_approval.2.2 _).1

/-! ### Rate limiter (`modules/rate_limiter.py`)

`call_with_backoff` is modelled with the wrapped callable as an oracle
`f : Nat → Except String α` giving the outcome of the `attempt`-th call
(`.error e` models a raised exception whose `str` is `e`).  The model returns
the final outcome, the number of calls issued, and the list of delays slept,
in order.  `time.sleep` itself is a real-time effect carried only as the
recorded delay value. -/

/-- `"rate_limit_exceeded" in error_str or "429" in error_str`
(rate_limiter.py line 49). -/
def isRateLimitError (e : String) : Bool :=
  strContains e "rate_limit_exceeded" || strContains e "429"

def digitsToNat (ds : List Char) : Nat :=
  ds.foldl (fun n c => 10 * n + (c.toNat - '0'.toNat)) 0

/-- Value of the fractional digit block of a decimal literal. -/
def fracValue (ds : List Char) : ℚ :=
  (digitsToNat ds : ℚ) / (10 ^ ds.length)

/-- Match `(\d+\.?\d*)s` at the head of `cs` and return the parsed float.
Greedy matching with the trailing literal `s` reduces to: maximal digit run,
optional single dot, maximal digit run, then `s` (backtracking over shorter
digit runs can never expose the required `s`). -/
def parseWaitNumber (cs : List Char) : Option ℚ :=
  let ds := cs.takeWhile Char.isDigit
  if ds.isEmpty then none
  else
    let rest := cs.dropWhile Char.isDigit
    match rest with
    | '.' :: r =>
      match r.dropWhile Char.isDigit with
      | 's' :: _ => some ((digitsToNat ds : ℚ) + fracValue (r.takeWhile Char.isDigit))
      | _ => none
    | 's' :: _ => some ((digitsToNat ds : ℚ))
    | _ => none

/-- `RateLimiter._extract_wait_time` (lines 68-78):
`re.search(r'try again in (\d+\.?\d*)s', error_message)`, first match wins,
plus the `0.5` buffer. -/
def extractWaitTimeAux : List Char → Option ℚ
  | [] => none
  | c :: cs =>
    if startsWithList ("try again in ".toList) (c :: cs) then
      match parseWaitNumber ((c :: cs).drop ("try again in ".toList.length)) with
      | some q => some (q + 1/2)
      | none => extractWaitTimeAux cs
    else extractWaitTimeAux cs

def extractWaitTime (msg : String) : Option ℚ := extractWaitTimeAux msg.toList

/-- `RateLimiter.call_with_backoff` (lines 36-66), one loop iteration at
`attempt`, with `remaining = max_retries - attempt` iterations allowed after
this one.  Returns (outcome, number of calls, recorded sleep delays). -/
def backoffAux (f : Nat → Except String α) (base : ℚ) :
    Nat → Nat → Except String α × Nat × List ℚ
  | attempt, remaining =>
    match f attempt with
    | .ok v => (.ok v, 1, [])
    | .error e =>
      if isRateLimitError e then
        match remaining with
        | 0 => (.error e, 1, [])
        | r + 1 =>
          let tail := backoffAux f base (attempt + 1) r
          (tail.1, tail.2.1 + 1,
            ((extractWaitTime e).getD (base * 2 ^ attempt)) :: tail.2.2)
      else (.error e, 1, [])

/-- `RateLimiter.call_with_backoff(func)` with `max_retries` retries. -/
def callWithBackoff (f : Nat → Except String α) (base : ℚ) (maxRetries : Nat) :
    Except String α × Nat × List ℚ :=
  backoffAux f base 0 maxRetries

theorem backoffAux_ok (f : Nat → Except String α) (base : ℚ)
    (attempt remaining : Nat) (v : α) (hf : f attempt = .ok v) :
    backoffAux f base attempt remaining = (.ok v, 1, []) := by
  rw [backoffAux, hf]

theorem backoffAux_fatal (f : Nat → Except String α) (base : ℚ)
    (attempt remaining : Nat) (e : String) (hf : f attempt = .error e)
    (hrl : isRateLimitError e = false) :
    backoffAux f base attempt remaining = (.error e, 1, []) := by
  rw [backoffAux, hf]
  dsimp only
  rw [hrl]
  simp

theorem backoffAux_rl_zero (f : Nat → Except String α) (base : ℚ)
    (attempt : Nat) (e : String) (hf : f attempt = .error e)
    (hrl : isRateLimitError e = true) :
    backoffAux f base attempt 0 = (.error e, 1, []) := by
  rw [backoffAux, hf]
  dsimp only
  rw [hrl]
  simp

theorem backoffAux_rl_succ (f : Nat → Except String α) (base : ℚ)
    (attempt r : Nat) (e : String) (hf : f attempt = .error e)
    (hrl : isRateLimitError e = true) :
    backoffAux f base attempt (r + 1) =
      ((backoffAux f base (attempt + 1) r).1,
        (backoffAux f base (attempt + 1) r).2.1 + 1,
        ((extractWaitTime e).getD (base * 2 ^ attempt))
          :: (backoffAux f base (attempt + 1) r).2.2) := by
  rw [backoffAux, hf]
  dsimp only
  rw [hrl]
  simp

theorem backoffAux_calls_le (f : Nat → Except String α) (base : ℚ) :
    ∀ remaining attempt, (backoffAux f base attempt remaining).2.1 ≤ remaining + 1 := by
  intro remaining
  induction remaining with
  | zero =>
    intro attempt
    cases hf : f attempt with
    | ok v => rw [backoffAux_ok f base attempt 0 v hf]
    | error e =>
      cases hrl : isRateLimitError e with
      | false => rw [backoffAux_fatal f base attempt 0 e hf hrl]
      | true => rw [backoffAux_rl_zero f base attempt e hf hrl]
  | succ r ih =>
    intro attempt
    cases hf : f attempt with
    | ok v =>
      rw [backoffAux_ok f base attempt (r + 1) v hf]
      show (1 : ℕ) ≤ r + 1 + 1
      omega
    | error e =>
      cases hrl : isRateLimitError e with
      | false =>
        rw [backoffAux_fatal f base attempt (r + 1) e hf hrl]
        show (1 : ℕ) ≤ r + 1 + 1
        omega
      | true =>
        rw [backoffAux_rl_succ f base attempt r e hf hrl]
        have := ih (attempt + 1)
        simpa using Nat.add_le_add_right this 1

theorem backoffAux_delays (f : Nat → Except String α) (base : ℚ) :
    ∀ remaining attempt i (h : i < (backoffAux f base attempt remaining).2.2.length),
      ∃ e, f (attempt + i) = .error e ∧ isRateLimitError e = true
        ∧ (backoffAux f base attempt remaining).2.2.get ⟨i, h⟩
            = (extractWaitTime e).getD (base * 2 ^ (attempt + i)) := by
  intro remaining
  induction remaining with
  | zero =>
    intro attempt i h
    exfalso
    cases hf : f attempt with
    | ok v => rw [backoffAux_ok f base attempt 0 v hf] at h; simp at h
    | error e =>
      cases hrl : isRateLimitError e with
      | false => rw [backoffAux_fatal f base attempt 0 e hf hrl] at h; simp at h
      | true => rw [backoffAux_rl_zero f base attempt e hf hrl] at h; simp at h
  | succ r ih =>
    intro attempt i h
    cases hf : f attempt with
    | ok v =>
      exfalso
      rw [backoffAux_ok f base attempt (r + 1) v hf] at h
      simp at h
    | error e =>
      cases hrl : isRateLimitError e with
      | false =>
        exfalso
        rw [backoffAux_fatal f base attempt (r + 1) e hf hrl] at h
        simp at h
      | true =>
        have hun := backoffAux_rl_succ f base attempt r e hf hrl
        cases i with
        | zero =>
          refine ⟨e, by simpa using hf, hrl, ?_⟩
          have : (backoffAux f base attempt (r + 1)).2.2.get ⟨0, h⟩
              = (extractWaitTime e).getD (base * 2 ^ attempt) := by
            simp [hun]
          simpa using this
        | succ i' =>
          have h' : i' < (backoffAux f base (attempt + 1) r).2.2.length := by
            have := h
            rw [hun] at this
            simpa using this
          obtain ⟨e', he', hrl', hd⟩ := ih (attempt + 1) i' h'
          refine ⟨e', by rw [← he']; congr 1; omega, hrl', ?_⟩
          have hidx : attempt + (i' + 1) = attempt + 1 + i' := by omega
          rw [hidx, ← hd]
          have : (backoffAux f base attempt (r + 1)).2.2.get ⟨i' + 1, h⟩
              = (backoffAux f base (attempt + 1) r).2.2.get ⟨i', h'⟩ := by
            simp [hun]
          exact this

/-- C5: over any wrapped call (attempt-indexed outcome oracle `f`), the rate
limiter issues at most `maxRetries + 1` calls; the delay recorded before
retry `i` comes from an error raised by attempt `i` that is rate-limit-class,
and equals the provider-supplied wait time when the error message carries one
and `base * 2^i` otherwise — so delays at two non-provider retries grow
monotonically (for `0 ≤ base`); and a non-rate-limit error on the first call
is re-raised immediately: one call, no delays. -/
theorem C5_backoff_bound_and_delays (f : Nat → Except String α) (base : ℚ)
    (maxRetries : Nat) :
    (callWithBackoff f base maxRetries).2.1 ≤ maxRetries + 1
    ∧ (∀ i (h : i < (callWithBackoff f base maxRetries).2.2.length),
        ∃ e, f i = .error e ∧ isRateLimitError e = true
          ∧ (callWithBackoff f base maxRetries).2.2.get ⟨i, h⟩
              = (extractWaitTime e).getD (base * 2 ^ i))
    ∧ (0 ≤ base →
        ∀ i j (hi : i < (callWithBackoff f base maxRetries).2.2.length)
          (hj : j < (callWithBackoff f base maxRetries).2.2.length),
          i ≤ j →
          (∀ e, f i = .error e → extractWaitTime e = none) →
          (∀ e, f j = .error e → extractWaitTime e = none) →
          (callWithBackoff f base maxRetries).2.2.get ⟨i, hi⟩
            ≤ (callWithBackoff f base maxRetries).2.2.get ⟨j, hj⟩)
    ∧ (∀ e, f 0 = .error e → isRateLimitError e = false →
        callWithBackoff f base maxRetries = (.error e, 1, [])) := by
  refine ⟨backoffAux_calls_le f base maxRetries 0, ?_, ?_, ?_⟩
  · intro i h
    simpa using backoffAux_delays f base maxRetries 0 i h
  · intro hbase i j hi hj hij hni hnj
    obtain ⟨ei, hei, _, hdi⟩ := backoffAux_delays f base maxRetries 0 i hi
    obtain ⟨ej, hej, _, hdj⟩ := backoffAux_delays f base maxRetries 0 j hj
    rw [Nat.zero_add] at hei hej hdi hdj
    show (backoffAux f base 0 maxRetries).2.2.get ⟨i, hi⟩
      ≤ (backoffAux f base 0 maxRetries).2.2.get ⟨j, hj⟩
    rw [hdi, hdj, hni ei hei, hnj ej hej]
    simp only [Option.getD_none]
    exact mul_le_mul_of_nonneg_left
      (pow_le_pow_right₀ (by norm_num) hij) hbase
  · intro e hf hrl
    exact backoffAux_fatal f base 0 maxRetries e hf hrl

/-- Attempt-outcome oracle for the C5 witness: a `429` error, then a
rate-limit error with a provider wait time, then success. -/
def c5SampleCalls : Nat → Except String Nat
  | 0 => .error "Error 429: rate_limit_exceeded"
  | 1 => .error "rate_limit_exceeded, Please try again in 1.5s"
  | _ => .ok 42

/-- A non-rate-limit failure on the first call, for the immediate-reraise
part of the C5 witness. -/
def c5FatalCalls : Nat → Except String Nat
  | _ => .error "boom"

/-- Witness for C5 at concrete inputs: the sampled run makes at most 4 calls;
its first delay is the exponential fallback for the 429 error; and the fatal
(non-rate-limit) call is re-raised after exactly one call with no delays. -/
theorem C5_backoff_bound_and_delays_witness :
    (callWithBackoff c5SampleCalls 2 3).2.1 ≤ 3 + 1
    ∧ (∃ e, c5SampleCalls 0 = .error e ∧ isRateLimitError e = true
        ∧ ∃ h : 0 < (callWithBackoff c5SampleCalls 2 3).2.2.length,
            (callWithBackoff c5SampleCalls 2 3).2.2.get ⟨0, h⟩
              = (extractWaitTime e).getD (2 * 2 ^ 0))
    ∧ callWithBackoff c5FatalCalls 1 3 = (.error "boom", 1, []) := by
  have h := C5_backoff_bound_and_delays c5SampleCalls 2 3
  have hlen : 0 < (callWithBackoff c5SampleCalls 2 3).2.2.length := by decide
  obtain ⟨e, he, hrl, hd⟩ := h.2.1 0 hlen
  exact ⟨h.1, ⟨e, he, hrl, hlen, hd⟩,
    (C5_backoff_bound_and_delays c5FatalCalls 1 3).2.2.2 "boom" rfl (by decide)⟩

/-! ### Execution agent (`modules/execution_agent.py`)

Collaborators become oracles: `retrieve` for `Retriever.retrieve_from_sources`
(returns `[]` rather than raising on a failed search, per its contract),
`extract` for `LLMTools.extract_key_information` (may raise), the citation
extractor for `CitationEngine.extract_citations_from_content` (may raise), and
plain functions for the phase synthesis / plan update helpers, which catch
their own exceptions in the source and are therefore total.
`MemoryManager.store_documents`, the per-phase critique sub-result and the
`save_research_phase` database write (which swallows database errors) do not
affect any claimed behaviour and are not modelled. -/

structure Document where
  title : String
  url : String
  content : String
  deriving Repr, DecidableEq

/-- The dict produced by `LLMTools.extract_key_information`. -/
structure KeyInfo where
  key_findings : List String
  relevant_facts : List String
  statistics : List String
  conclusions : List String
  relevance_score : ℚ
  deriving Repr, DecidableEq

/-- The finding dict built at execution_agent.py lines 223-232. -/
def mkFinding (phaseId : String) (doc : Document) (ki : KeyInfo) : Finding :=
  { source_title := doc.title, source_url := doc.url,
    key_findings := ki.key_findings, relevant_facts := ki.relevant_facts,
    statistics := ki.statistics, conclusions := ki.conclusions,
    relevance_score := ki.relevance_score, phase_id := phaseId }

/-- The per-document loop of `_execute_single_phase` (lines 214-246): for
each document, extract key information (an exception skips the document
entirely); keep a finding only when `relevance_score > 0.3`; then extract
citations and append them irrespective of the relevance score (an exception
here skips only the citations — the finding is already appended). -/
def processDocuments (extract : String → Except String KeyInfo)
    (extractCitations : String → Document → Except String (List Citation))
    (phaseId : String) : List Document → List Finding × List Citation
  | [] => ([], [])
  | doc :: rest =>
    let tail := processDocuments extract extractCitations phaseId rest
    match extract doc.content with
    | .error _ => tail
    | .ok ki =>
      match extractCitations doc.content doc with
      | .error _ =>
        ((if ki.relevance_score > mkRat 3 10 then [mkFinding phaseId doc ki] else [])
            ++ tail.1,
          tail.2)
      | .ok cits =>
        ((if ki.relevance_score > mkRat 3 10 then [mkFinding phaseId doc ki] else [])
            ++ tail.1,
          cits ++ tail.2)

/-- A phase-result dict: the success shape of `_execute_single_phase`
(lines 258-269) and the failure shapes of lines 201-205 / 178-182. -/
structure PhaseResult where
  phase_id : String
  success : Bool
  error : Option String := none
  phase_title : Option String := none
  documents_retrieved : Nat := 0
  findings : List Finding := []
  citations : List Citation := []
  summary : String := ""
  new_insights : List String := []
  deriving Repr, DecidableEq

/-- `_extract_new_insights` (lines 377-390): key findings of findings with
relevance above 0.8, plus every conclusion, first five kept. -/
def extractNewInsights (findings : List Finding) : List String :=
  (findings.flatMap (fun f =>
    (if f.relevance_score > mkRat 4 5 then f.key_findings else [])
      ++ f.conclusions)).take 5

/-- `_execute_single_phase` (lines 186-269) on the paths where no exception
escapes: zero retrieved documents yield the failure result of lines 201-205;
otherwise the per-document loop runs and the success result is assembled. -/
def executeSinglePhase (retrieve : List String → List String → List Document)
    (extract : String → Except String KeyInfo)
    (extractCitations : String → Document → Except String (List Citation))
    (synthesize : List Finding → Phase → String)
    (phase : Phase) : PhaseResult :=
  let retrieved := retrieve phase.search_terms phase.expected_sources
  if retrieved.isEmpty then
    { phase_id := phase.id, success := false, error := some "No documents retrieved" }
  else
    let fc := processDocuments extract extractCitations phase.id retrieved
    { phase_id := phase.id, phase_title := some phase.title, success := true,
      documents_retrieved := retrieved.length,
      findings := fc.1, citations := fc.2,
      summary := synthesize fc.1 phase,
      new_insights := extractNewInsights fc.1 }

/-- Outcome of one `_execute_single_phase` call as seen by `_execute_phases`:
either a returned result dict, or a raised exception together with the
findings/citations the phase had already appended to the agent's global lists
before raising. -/
inductive PhaseOutcome where
  | result (r : PhaseResult)
  | raised (msg : String) (partialFindings : List Finding)
      (partialCitations : List Citation)
  deriving Repr, DecidableEq

structure LogEntry where
  description : String
  completed_phases : Nat
  deriving Repr, DecidableEq

/-- The mutable state of `ExecutionAgent` (fields initialised empty in
`__init__`); the wall-clock timestamp of log entries is not modelled. -/
structure AgentState where
  completed_phases : List String := []
  all_findings : List Finding := []
  all_citations : List Citation := []
  phase_results : List PhaseResult := []
  execution_log : List LogEntry := []
  deriving Repr, DecidableEq

/-- `_log_step` (lines 461-469). -/
def logStep (st : AgentState) (description : String) : AgentState :=
  { st with execution_log :=
      st.execution_log ++ [⟨description, st.completed_phases.length⟩] }

/-- The failure dict appended by the `except` branch of `_execute_phases`
(lines 178-182). -/
def failureRecord (phaseId msg : String) : PhaseResult :=
  { phase_id := phaseId, success := false, error := some msg }

/-- `_execute_phases` (lines 146-184), fuel-indexed: `none` means the loop
did not finish within `fuel` iterations.  On a returned result the phase id
is appended to `completed_phases` and the plan may be updated when the result
carries new insights; on a raised exception only the failure record and the
pre-raise partial findings/citations are appended — `completed_phases` is NOT
extended, so selection state is unchanged. -/
def executePhasesLoop (exec : Phase → PhaseOutcome)
    (updatePlan : Plan → List String → List String → Plan) :
    Nat → Plan → AgentState → Option (Plan × AgentState)
  | 0, _, _ => none
  | fuel + 1, plan, st =>
    match getNextPhase plan st.completed_phases with
    | none => some (plan, st)
    | some phase =>
      let st0 := logStep st ("Executing phase: " ++ phase.title)
      match exec phase with
      | .result r =>
        let st1 : AgentState :=
          { st0 with
            phase_results := st0.phase_results ++ [r],
            completed_phases := st0.completed_phases ++ [phase.id],
            all_findings := st0.all_findings ++ r.findings,
            all_citations := st0.all_citations ++ r.citations }
        executePhasesLoop exec updatePlan fuel
          (if r.new_insights.isEmpty then plan
           else updatePlan plan r.new_insights st1.completed_phases) st1
      | .raised msg pf pc =>
        executePhasesLoop exec updatePlan fuel plan
          { st0 with
            phase_results := st0.phase_results ++ [failureRecord phase.id msg],
            all_findings := st0.all_findings ++ pf,
            all_citations := st0.all_citations ++ pc }

theorem executePhasesLoop_done (exec : Phase → PhaseOutcome)
    (upd : Plan → List String → List String → Plan) (fuel : Nat) (plan : Plan)
    (st : AgentState) (hsel : getNextPhase plan st.completed_phases = none) :
    executePhasesLoop exec upd (fuel + 1) plan st = some (plan, st) := by
  rw [executePhasesLoop, hsel]

theorem executePhasesLoop_result (exec : Phase → PhaseOutcome)
    (upd : Plan → List String → List String → Plan) (fuel : Nat) (plan : Plan)
    (st : AgentState) (phase : Phase) (r : PhaseResult)
    (hsel : getNextPhase plan st.completed_phases = some phase)
    (hexec : exec phase = .result r) :
    executePhasesLoop exec upd (fuel + 1) plan st =
      executePhasesLoop exec upd fuel
        (if r.new_insights.isEmpty then plan
         else upd plan r.new_insights (st.completed_phases ++ [phase.id]))
        { completed_phases := st.completed_phases ++ [phase.id],
          all_findings := st.all_findings ++ r.findings,
          all_citations := st.all_citations ++ r.citations,
          phase_results := st.phase_results ++ [r],
          execution_log := st.execution_log
            ++ [⟨"Executing phase: " ++ phase.title, st.completed_phases.length⟩] } := by
  rw [executePhasesLoop, hsel]
  dsimp only
  rw [hexec]
  dsimp only [logStep]

theorem executePhasesLoop_raised (exec : Phase → PhaseOutcome)
    (upd : Plan → List String → List String → Plan) (fuel : Nat) (plan : Plan)
    (st : AgentState) (phase : Phase) (msg : String) (pf : List Finding)
    (pc : List Citation)
    (hsel : getNextPhase plan st.completed_phases = some phase)
    (hexec : exec phase = .raised msg pf pc) :
    executePhasesLoop exec upd (fuel + 1) plan st =
      executePhasesLoop exec upd fuel plan
        { completed_phases := st.completed_phases,
          all_findings := st.all_findings ++ pf,
          all_citations := st.all_citations ++ pc,
          phase_results := st.phase_results ++ [failureRecord phase.id msg],
          execution_log := st.execution_log
            ++ [⟨"Executing phase: " ++ phase.title, st.completed_phases.length⟩] } := by
  rw [executePhasesLoop, hsel]
  dsimp only
  rw [hexec]
  dsimp only [logStep]

/-- When the first eligible phase always raises, the loop never makes
progress: the completed set is unchanged by the `except` branch, the same
phase is re-selected, and no amount of fuel finishes the loop. -/
theorem executePhasesLoop_stuck (exec : Phase → PhaseOutcome)
    (upd : Plan → List String → List String → Plan) (plan : Plan) (p : Phase)
    (msg : String) (pf : List Finding) (pc : List Citation)
    (hexec : exec p = .raised msg pf pc) :
    ∀ fuel (st : AgentState), getNextPhase plan st.completed_phases = some p →
      executePhasesLoop exec upd fuel plan st = none := by
  intro fuel
  induction fuel with
  | zero => intro st _; rfl
  | succ f ih =>
    intro st hsel
    rw [executePhasesLoop_raised exec upd f plan st p msg pf pc hsel hexec]
    exact ih _ hsel

/-! #### Loosely-typed extraction output and the synthesis-join raise

`LLMTools.extract_key_information` returns `json.loads(...)` verbatim on
the success path (llm_tools.py line 145), so the lists in the decoded dict
may contain non-string items.  `_execute_single_phase` stores them
unchecked in the finding dict (lines 223-232), and
`_synthesize_phase_findings` later calls `"; ".join(...)` on them
(execution_agent.py lines 279-281) OUTSIDE its `try` block; a non-string
item therefore raises `TypeError` out of `_execute_single_phase`, which
has no handler of its own.  `PyVal` models the JSON scalars that can
appear in those decoded lists.  Every other step of the phase is total:
`retrieve_from_sources` has no uncaught operation (the
`max_sources // len(search_terms)` division sits inside the per-term
loop, so it never divides by zero), `store_documents` wraps each document
in its own `try/except ... continue`, and the citation extractor and
critique catch all their exceptions. -/

inductive PyVal where
  | pyStr (s : String)
  | pyInt (n : Int)
  deriving Repr, DecidableEq

/-- Python `sep.join(xs)`: concatenates string items with the separator and
raises `TypeError` at the first non-string item (Python's message also
names the offending index). -/
def pyJoin (sep : String) : List PyVal → Except String String
  | [] => .ok ""
  | [.pyStr s] => .ok s
  | .pyStr s :: rest =>
    match pyJoin sep rest with
    | .error e => .error e
    | .ok t => .ok (s ++ sep ++ t)
  | .pyInt _ :: _ => .error "sequence item: expected str instance, int found"

/-- The dict decoded from the model response by `extract_key_information`,
with loosely-typed list items. -/
structure LooseKeyInfo where
  key_findings : List PyVal
  relevant_facts : List PyVal
  statistics : List PyVal
  conclusions : List PyVal
  relevance_score : ℚ
  deriving Repr, DecidableEq

/-- The finding dict of execution_agent.py lines 223-232 when the decoded
extraction lists are loosely typed; the items are stored unchecked. -/
structure LooseFinding where
  source_title : String
  source_url : String
  key_findings : List PyVal
  relevant_facts : List PyVal
  statistics : List PyVal
  conclusions : List PyVal
  relevance_score : ℚ
  phase_id : String
  deriving Repr, DecidableEq

def mkLooseFinding (phaseId : String) (doc : Document) (ki : LooseKeyInfo) :
    LooseFinding :=
  { source_title := doc.title, source_url := doc.url,
    key_findings := ki.key_findings, relevant_facts := ki.relevant_facts,
    statistics := ki.statistics, conclusions := ki.conclusions,
    relevance_score := ki.relevance_score, phase_id := phaseId }

/-- The per-document loop of `_execute_single_phase` (lines 214-246) over
loosely-typed extraction output — the same loop as `processDocuments`; no
list item is inspected here, so no `TypeError` can occur yet. -/
def processDocumentsLoose (extract : String → Except String LooseKeyInfo)
    (extractCitations : String → Document → Except String (List Citation))
    (phaseId : String) : List Document → List LooseFinding × List Citation
  | [] => ([], [])
  | doc :: rest =>
    let tail := processDocumentsLoose extract extractCitations phaseId rest
    match extract doc.content with
    | .error _ => tail
    | .ok ki =>
      match extractCitations doc.content doc with
      | .error _ =>
        ((if ki.relevance_score > mkRat 3 10 then [mkLooseFinding phaseId doc ki]
            else []) ++ tail.1,
          tail.2)
      | .ok cits =>
        ((if ki.relevance_score > mkRat 3 10 then [mkLooseFinding phaseId doc ki]
            else []) ++ tail.1,
          cits ++ tail.2)

/-- One entry of the `findings_text` comprehension in
`_synthesize_phase_findings` (lines 277-283): three `"; ".join(...)` calls
on the decoded lists, each of which raises `TypeError` on a non-string
item. -/
def looseFindingText (f : LooseFinding) : Except String String :=
  match pyJoin "; " f.key_findings with
  | .error e => .error e
  | .ok kf =>
    match pyJoin "; " f.relevant_facts with
    | .error e => .error e
    | .ok facts =>
      match pyJoin "; " f.statistics with
      | .error e => .error e
      | .ok stats =>
        .ok ("Source: " ++ f.source_title ++ "\n"
          ++ "Key Findings: " ++ kf ++ "\n"
          ++ "Facts: " ++ facts ++ "\n"
          ++ "Statistics: " ++ stats)

def looseFindingsText : List LooseFinding → Except String (List String)
  | [] => .ok []
  | f :: rest =>
    match looseFindingText f with
    | .error e => .error e
    | .ok t =>
      match looseFindingsText rest with
      | .error e => .error e
      | .ok ts => .ok (t :: ts)

/-- `_synthesize_phase_findings` (lines 271-313): the empty-findings early
return; then the `findings_text` joins over the first five findings, which
run BEFORE the `try` and so propagate a `TypeError`; then the LLM synthesis,
whose own exception is caught with a templated fallback — modelled as the
total oracle `gen` applied to the phase and the joined text. -/
def synthesizePhaseFindingsLoose (gen : Phase → String → String)
    (findings : List LooseFinding) (phase : Phase) : Except String String :=
  if findings.isEmpty then .ok "No significant findings in this phase."
  else
    match looseFindingsText (findings.take 5) with
    | .error e => .error e
    | .ok texts => .ok (gen phase (joinWith "\n\n" texts))

/-- `_extract_new_insights` over loose findings: `list.extend` appends the
decoded items unchecked, so no exception here. -/
def extractNewInsightsLoose (findings : List LooseFinding) : List PyVal :=
  (findings.flatMap (fun f =>
    (if f.relevance_score > mkRat 4 5 then f.key_findings else [])
      ++ f.conclusions)).take 5

/-- The phase-result dict of `_execute_single_phase` with loosely-typed
finding fields. -/
structure LoosePhaseResult where
  phase_id : String
  success : Bool
  error : Option String := none
  phase_title : Option String := none
  documents_retrieved : Nat := 0
  findings : List LooseFinding := []
  citations : List Citation := []
  summary : String := ""
  new_insights : List PyVal := []
  deriving Repr, DecidableEq

/-- Outcome of `_execute_single_phase` over loosely-typed extraction output,
as seen by `_execute_phases`: a raised `TypeError` carries the findings and
citations the per-document loop had already appended to the agent's global
lists. -/
inductive LoosePhaseOutcome where
  | result (r : LoosePhaseResult)
  | raised (msg : String) (partialFindings : List LooseFinding)
      (partialCitations : List Citation)
  deriving Repr, DecidableEq

/-- `_execute_single_phase` (lines 186-269) over loosely-typed extraction
output: as `executeSinglePhase`, except that the phase-synthesis joins can
raise; the raise happens after the per-document loop, so the malformed
findings (and their citations) are already on the agent's global lists. -/
def executeSinglePhaseLoose (retrieve : List String → List String → List Document)
    (extract : String → Except String LooseKeyInfo)
    (extractCitations : String → Document → Except String (List Citation))
    (gen : Phase → String → String)
    (phase : Phase) : LoosePhaseOutcome :=
  let retrieved := retrieve phase.search_terms phase.expected_sources
  if retrieved.isEmpty then
    .result { phase_id := phase.id, success := false,
              error := some "No documents retrieved" }
  else
    let fc := processDocumentsLoose extract extractCitations phase.id retrieved
    match synthesizePhaseFindingsLoose gen fc.1 phase with
    | .error e => .raised e fc.1 fc.2
    | .ok summary =>
      .result { phase_id := phase.id, phase_title := some phase.title,
                success := true, documents_retrieved := retrieved.length,
                findings := fc.1, citations := fc.2, summary := summary,
                new_insights := extractNewInsightsLoose fc.1 }

/-- Single dependency-free phase: always the first eligible phase. -/
def c2Phase : Phase :=
  { id := "phase_1", title := "Initial research", description := "d",
    search_terms := ["topic"], expected_sources := ["web"], dependencies := [] }

def c2Plan : Plan :=
  { plan_id := "plan_1", research_goal := "g", phases := [c2Phase] }

def c2Doc : Document :=
  { title := "Doc", url := "http://example.org/doc", content := "text" }

/-- Retriever oracle: one document for every search (a deterministic
network environment). -/
def c2Retrieve : List String → List String → List Document := fun _ _ => [c2Doc]

/-- Extractor oracle: `extract_key_information` returns the decoded model
JSON verbatim (llm_tools.py line 145); in this environment the model
answers, on every attempt, with JSON whose key_findings list is the
one-integer list and whose relevance_score is 0.9 — above the 0.3 gate, so
the malformed finding is kept. -/
def c2Extract : String → Except String LooseKeyInfo :=
  fun _ => .ok { key_findings := [.pyInt 1], relevant_facts := [],
                 statistics := [], conclusions := [],
                 relevance_score := mkRat 9 10 }

def c2Cit : Citation :=
  { ctype := "source", title := "Doc", url := "http://example.org/doc",
    content := "Doc" }

/-- Citation oracle: `extract_citations_from_content` catches its own
exceptions and always returns at least the basic citation for the
document. -/
def c2Citer : String → Document → Except String (List Citation) :=
  fun _ _ => .ok [c2Cit]

def c2Gen : Phase → String → String := fun _ _ => "synthesis"

/-- The malformed finding dict built — and appended to the agent's global
findings by the per-document loop — before the raise: its key_findings list
holds the non-string item. -/
def c2LooseFinding : LooseFinding :=
  mkLooseFinding "phase_1" c2Doc
    { key_findings := [.pyInt 1], relevant_facts := [], statistics := [],
      conclusions := [], relevance_score := mkRat 9 10 }

/-- The `TypeError` message of the failing join. -/
def c2Msg : String := "sequence item: expected str instance, int found"

/-- Phase execution as seen by `_execute_phases` in this environment: the
`TypeError` raised by the synthesis join on every attempt.  The citations
appended before the raise are carried along; the malformed finding itself
lies outside the well-typed `Finding` model (its key findings are not
strings) and is omitted from the typed partial list — phase selection and
termination do not depend on the accumulated findings. -/
def c2Exec : Phase → PhaseOutcome := fun _ => .raised c2Msg [] [c2Cit]

def c2Upd : Plan → List String → List String → Plan := fun plan _ _ => plan

/-- C2 (failing behaviour): a reachable raise exists — with a retriever
returning one document and the extractor model answering, on every attempt,
with decoded JSON whose key_findings list contains the integer 1 (relevance
0.9, above the 0.3 gate), `_execute_single_phase` raises `TypeError` from
the `"; ".join` of `_synthesize_phase_findings` (execution_agent.py line
279, outside its `try`).  The `except` branch of `_execute_phases` records
the failure but does not append the phase id to `completed_phases`, so
`get_next_phase` re-selects the same phase and the loop never terminates:
the claim that the failed phase is not re-selected and the run ends
normally is violated. -/
theorem C2_phase_loop_nontermination_on_raise :
    executeSinglePhaseLoose c2Retrieve c2Extract c2Citer c2Gen c2Phase
      = .raised c2Msg [c2LooseFinding] [c2Cit]
    ∧ c2Exec c2Phase = .raised c2Msg [] [c2Cit]
    ∧ getNextPhase c2Plan ({} : AgentState).completed_phases = some c2Phase
    ∧ (∀ fuel, executePhasesLoop c2Exec c2Upd fuel c2Plan {} = none) := by
  refine ⟨by decide, rfl, by decide, ?_⟩
  intro fuel
  exact executePhasesLoop_stuck c2Exec c2Upd c2Plan c2Phase
    c2Msg [] [c2Cit] rfl fuel {} (by decide)

/-! Concrete two-phase scenario for C3: phase 1 retrieves zero documents and
fails with "No documents retrieved"; phase 2 depends on phase 1. -/

def c3Phase1 : Phase :=
  { id := "phase_1", title := "P1", description := "d1",
    search_terms := ["alpha"], expected_sources := ["web"], dependencies := [] }

def c3Phase2 : Phase :=
  { id := "phase_2", title := "P2", description := "d2",
    search_terms := ["beta"], expected_sources := ["web"],
    dependencies := ["phase_1"] }

def c3Plan : Plan :=
  { plan_id := "plan_1", research_goal := "g", phases := [c3Phase1, c3Phase2] }

def c3Doc : Document :=
  { title := "Doc", url := "http://doc", content := "text" }

/-- Retriever oracle: nothing for phase 1's terms, one document for phase 2's. -/
def c3Retrieve : List String → List String → List Document :=
  fun terms _ => if terms = ["beta"] then [c3Doc] else []

def c3Extract : String → Except String KeyInfo :=
  fun _ => .ok { key_findings := ["k"], relevant_facts := [], statistics := [],
                 conclusions := [], relevance_score := mkRat 1 2 }

def c3Citer : String → Document → Except String (List Citation) :=
  fun _ _ => .ok []

def c3Synth : List Finding → Phase → String := fun _ _ => "summary"

def c3Exec : Phase → PhaseOutcome :=
  fun p => .result (executeSinglePhase c3Retrieve c3Extract c3Citer c3Synth p)

def c3Upd : Plan → List String → List String → Plan := fun plan _ _ => plan

/-- The failure result of `_execute_single_phase` lines 201-205. -/
def c3NoDocsResult : PhaseResult :=
  { phase_id := "phase_1", success := false,
    error := some "No documents retrieved" }

/-- The finding extracted from phase 2's single document. -/
def c3Finding : Finding :=
  { source_title := "Doc", source_url := "http://doc", key_findings := ["k"],
    relevant_facts := [], statistics := [], conclusions := [],
    relevance_score := mkRat 1 2, phase_id := "phase_2" }

/-- Phase 2's successful result. -/
def c3Result2 : PhaseResult :=
  { phase_id := "phase_2", success := true, phase_title := some "P2",
    documents_retrieved := 1, findings := [c3Finding], citations := [],
    summary := "summary", new_insights := [] }

/-- Final agent state of the two-phase run: both phases completed although
phase 1 failed with "No documents retrieved". -/
def c3FinalState : AgentState :=
  { completed_phases := ["phase_1", "phase_2"],
    all_findings := [c3Finding], all_citations := [],
    phase_results := [c3NoDocsResult, c3Result2],
    execution_log := [⟨"Executing phase: P1", 0⟩, ⟨"Executing phase: P2", 1⟩] }

/-- C3: whenever `_execute_single_phase` returns a result — success or the
zero-documents failure — `_execute_phases` appends that phase's id to the
completed set (together with the result record and the result's
findings/citations); `_execute_single_phase` with zero retrieved documents
returns exactly the `success: false / "No documents retrieved"` result; and
in the concrete two-phase plan where phase 1 fails this way, phase 2 (which
depends on phase 1) still becomes eligible and is executed, the loop ending
normally with both phases completed. -/
theorem C3_returned_result_marks_phase_completed :
    (∀ (exec : Phase → PhaseOutcome) (upd : Plan → List String → List String → Plan)
       (fuel : Nat) (plan : Plan) (st : AgentState) (phase : Phase) (r : PhaseResult),
      getNextPhase plan st.completed_phases = some phase →
      exec phase = .result r →
      ∃ plan' st',
        executePhasesLoop exec upd (fuel + 1) plan st
          = executePhasesLoop exec upd fuel plan' st'
        ∧ st'.completed_phases = st.completed_phases ++ [phase.id]
        ∧ st'.phase_results = st.phase_results ++ [r]
        ∧ st'.all_findings = st.all_findings ++ r.findings
        ∧ st'.all_citations = st.all_citations ++ r.citations)
    ∧ executeSinglePhase c3Retrieve c3Extract c3Citer c3Synth c3Phase1 = c3NoDocsResult
    ∧ executePhasesLoop c3Exec c3Upd 3 c3Plan {} = some (c3Plan, c3FinalState)
    ∧ c3FinalState.completed_phases = ["phase_1", "phase_2"]
    ∧ c3FinalState.phase_results.map (fun r => (r.phase_id, r.success, r.error))
        = [("phase_1", false, some "No documents retrieved"), ("phase_2", true, none)] := by
  refine ⟨?_, by decide, by decide, by decide, by decide⟩
  intro exec upd fuel plan st phase r hsel hexec
  exact ⟨_, _, executePhasesLoop_result exec upd fuel plan st phase r hsel hexec,
    rfl, rfl, rfl, rfl⟩

/-- Witness for C3 at the concrete scenario: one step of the loop on the
two-phase plan appends `"phase_1"` to the completed set even though its
result is the zero-documents failure. -/
theorem C3_returned_result_marks_phase_completed_witness :
    ∃ plan' st',
      executePhasesLoop c3Exec c3Upd 1 c3Plan {}
        = executePhasesLoop c3Exec c3Upd 0 plan' st'
      ∧ st'.completed_phases = ([] : List String) ++ ["phase_1"]
      ∧ st'.phase_results = ([] : List PhaseResult) ++ [c3NoDocsResult]
      ∧ st'.all_findings = ([] : List Finding) ++ c3NoDocsResult.findings
      ∧ st'.all_citations = ([] : List Citation) ++ c3NoDocsResult.citations :=
  C3_returned_result_marks_phase_completed.1 c3Exec c3Upd 0 c3Plan {} c3Phase1
    c3NoDocsResult (by decide) (by decide)

theorem mkRat_three_tenths : mkRat 3 10 = (3 : ℚ)/10 := by
  rw [Rat.mkRat_eq_div]; norm_num

theorem processDocuments_extract_err (extract : String → Except String KeyInfo)
    (extractCitations : String → Document → Except String (List Citation))
    (phaseId : String) (doc : Document) (rest : List Document) (e : String)
    (hx : extract doc.content = .error e) :
    processDocuments extract extractCitations phaseId (doc :: rest)
      = processDocuments extract extractCitations phaseId rest := by
  rw [processDocuments, hx]

theorem processDocuments_cite_err (extract : String → Except String KeyInfo)
    (extractCitations : String → Document → Except String (List Citation))
    (phaseId : String) (doc : Document) (rest : List Document) (ki : KeyInfo)
    (e : String) (hx : extract doc.content = .ok ki)
    (hc : extractCitations doc.content doc = .error e) :
    processDocuments extract extractCitations phaseId (doc :: rest)
      = ((if ki.relevance_score > mkRat 3 10 then [mkFinding phaseId doc ki] else [])
            ++ (processDocuments extract extractCitations phaseId rest).1,
          (processDocuments extract extractCitations phaseId rest).2) := by
  rw [processDocuments, hx, hc]

theorem processDocuments_ok_ok (extract : String → Except String KeyInfo)
    (extractCitations : String → Document → Except String (List Citation))
    (phaseId : String) (doc : Document) (rest : List Document) (ki : KeyInfo)
    (cs : List Citation) (hx : extract doc.content = .ok ki)
    (hc : extractCitations doc.content doc = .ok cs) :
    processDocuments extract extractCitations phaseId (doc :: rest)
      = ((if ki.relevance_score > mkRat 3 10 then [mkFinding phaseId doc ki] else [])
            ++ (processDocuments extract extractCitations phaseId rest).1,
          cs ++ (processDocuments extract extractCitations phaseId rest).2) := by
  rw [processDocuments, hx, hc]

/-- C6: over any per-phase document batch and any extraction/citation
oracles, every finding produced by the per-document loop has
`relevance_score > 0.3`; and when no document raises, the citation list is
exactly the concatenation of each document's extracted citations — collected
regardless of the document's relevance score — while the finding list is
exactly the documents whose extraction clears the 0.3 gate. -/
theorem C6_relevance_gate_findings_citations
    (extract : String → Except String KeyInfo)
    (extractCitations : String → Document → Except String (List Citation))
    (phaseId : String) (docs : List Document) :
    (∀ f ∈ (processDocuments extract extractCitations phaseId docs).1,
      (3 : ℚ)/10 < f.relevance_score)
    ∧ ((∀ d ∈ docs, ∃ ki, extract d.content = .ok ki) →
       (∀ d ∈ docs, ∃ cs, extractCitations d.content d = .ok cs) →
        (processDocuments extract extractCitations phaseId docs).2
            = docs.flatMap (fun d =>
                match extractCitations d.content d with
                | .ok cs => cs
                | .error _ => [])
        ∧ (processDocuments extract extractCitations phaseId docs).1
            = docs.filterMap (fun d =>
                match extract d.content with
                | .ok ki =>
                  if ki.relevance_score > mkRat 3 10 then some (mkFinding phaseId d ki)
                  else none
                | .error _ => none)) := by
  induction docs with
  | nil => exact ⟨by intro f hf; simp [processDocuments] at hf, fun _ _ => ⟨rfl, rfl⟩⟩
  | cons doc rest ih =>
    constructor
    · intro f hf
      cases hx : extract doc.content with
      | error e =>
        rw [processDocuments_extract_err extract extractCitations phaseId doc rest e hx]
          at hf
        exact ih.1 f hf
      | ok ki =>
        have hmem : f ∈ (if ki.relevance_score > mkRat 3 10
              then [mkFinding phaseId doc ki] else [])
            ∨ f ∈ (processDocuments extract extractCitations phaseId rest).1 := by
          cases hc : extractCitations doc.content doc with
          | error e =>
            rw [processDocuments_cite_err extract extractCitations phaseId doc rest ki e
              hx hc] at hf
            exact List.mem_append.mp hf
          | ok cs =>
            rw [processDocuments_ok_ok extract extractCitations phaseId doc rest ki cs
              hx hc] at hf
            exact List.mem_append.mp hf
        rcases hmem with hmem | hmem
        · by_cases hgate : ki.relevance_score > mkRat 3 10
          · rw [if_pos hgate] at hmem
            rcases List.mem_singleton.mp hmem with rfl
            rw [mkRat_three_tenths] at hgate
            exact hgate
          · rw [if_neg hgate] at hmem
            exact absurd hmem (List.not_mem_nil f)
        · exact ih.1 f hmem
    · intro hext hcit
      obtain ⟨ki, hki⟩ := hext doc (by simp)
      obtain ⟨cs, hcs⟩ := hcit doc (by simp)
      have ihok := ih.2 (fun d hd => hext d (by simp [hd]))
        (fun d hd => hcit d (by simp [hd]))
      rw [processDocuments_ok_ok extract extractCitations phaseId doc rest ki cs hki hcs]
      constructor
      · rw [List.flatMap_cons, hcs]
        dsimp only
        rw [ihok.1]
      · rw [List.filterMap_cons, hki]
        dsimp only
        by_cases hgate : ki.relevance_score > mkRat 3 10
        · rw [if_pos hgate, if_pos hgate, ihok.2]
          rfl
        · rw [if_neg hgate, if_neg hgate, ihok.2]
          rfl

/-- Extraction oracle for the C6 witness: relevance 0.9 for the document with
content `"high"`, 0.2 otherwise. -/
def c6Extract : String → Except String KeyInfo :=
  fun content => .ok
    { key_findings := [content], relevant_facts := [],
      statistics := [], conclusions := [],
      relevance_score := if content = "high" then mkRat 9 10 else mkRat 1 5 }

def c6Citer : String → Document → Except String (List Citation) :=
  fun _ d => .ok [{ title := d.title, url := d.url }]

def c6Docs : List Document :=
  [{ title := "A", url := "ua", content := "high" },
   { title := "B", url := "ub", content := "low" }]

/-- Witness for C6 at a concrete batch: two documents, one above and one
below the relevance gate; only the first yields a finding, yet both yield
their citations. -/
theorem C6_relevance_gate_findings_citations_witness :
    ((processDocuments c6Extract c6Citer "phase_1" c6Docs).1.map
        (fun f => f.source_title) = ["A"])
    ∧ ((processDocuments c6Extract c6Citer "phase_1" c6Docs).2.map
        (fun c => c.title) = ["A", "B"])
    ∧ ∀ f ∈ (processDocuments c6Extract c6Citer "phase_1" c6Docs).1,
        (3 : ℚ)/10 < f.relevance_score := by
  refine ⟨by decide, by decide, ?_⟩
  exact (C6_relevance_gate_findings_citations c6Extract c6Citer "phase_1" c6Docs).1

/-! ### `ExecutionAgent.execute_research` (lines 49-144)

`DatabaseOperations.create_research_session` re-raises database errors
(database/operations.py line 50) and is therefore an `Except` oracle; the
remaining database writes (`save_findings`, `save_citations`,
`update_session_status`, `save_research_phase`) swallow their errors and
return counts/flags, so they do not affect control flow and are not
modelled.  `Planner.create_execution_plan` catches every exception and falls
back to a deterministic plan, so the created plan is a total input, and the
overall synthesis narrative (LLM-generated with a templated fallback) enters
as the total oracle `synthesize`. -/

/-- The failure dict of execute_research lines 135-144. -/
structure ResearchFailure where
  error : String
  execution_log : List LogEntry
  partial_findings : List Finding
  partial_citations : List Citation
  session_id : Option String
  deriving Repr, DecidableEq

/-- The success dict of execute_research lines 104-123 (the metadata /
step-display fields are derived views of the same state and are not
repeated here). -/
structure ResearchSuccess where
  research_goal : String
  execution_plan : Plan
  phase_results : List PhaseResult
  synthesis : String
  quality_check : QualityAssessment
  findings : List Finding
  citations : List Citation
  execution_log : List LogEntry
  session_id : Option String

inductive RunResult where
  | success (r : ResearchSuccess)
  | failure (f : ResearchFailure)

/-- `ExecutionAgent.execute_research`, fuel-indexed through the phase loop:
`none` means the phase loop never finished.  A raise in session creation hits
the outer `except` and produces the structured failure dict carrying the
execution log and the accumulated findings/citations (all still empty at
that point). -/
def executeResearch (createSession : Except String String)
    (exec : Phase → PhaseOutcome)
    (updatePlan : Plan → List String → List String → Plan)
    (synthesize : List Finding → String)
    (researchGoal : String) (plan : Plan) (fuel : Nat) : Option RunResult :=
  match createSession with
  | .error e =>
    some (.failure
      { error := e, execution_log := [], partial_findings := [],
        partial_citations := [], session_id := none })
  | .ok sid =>
    let st2 := logStep (logStep {} "Creating execution plan") "Beginning research phases"
    match executePhasesLoop exec updatePlan fuel plan st2 with
    | none => none
    | some (finalPlan, st3) =>
      let st5 := logStep (logStep st3 "Synthesizing research findings")
        "Conducting final quality review"
      some (.success
        { research_goal := researchGoal,
          execution_plan := finalPlan,
          phase_results := st5.phase_results,
          synthesis := synthesize st5.all_findings,
          quality_check := finalQualityReview
            { goal := finalPlan.research_goal, findings := st5.all_findings,
              citations := st5.all_citations,
              phases_completed := st5.completed_phases.length },
          findings := st5.all_findings, citations := st5.all_citations,
          execution_log := st5.execution_log, session_id := some sid })

def c8Synth : List Finding → String := fun _ => "synthesis"

/-- C8 counterexample: in the C2 environment — a phase whose execution
raises the synthesis-join `TypeError` on every attempt —
`execute_research` never returns at all (the phase loop never terminates),
contradicting the claim that every input yields a structured result
object. -/
theorem C8_counterexample_no_result_on_persistent_raise :
    ¬ ∃ fuel,
      (executeResearch (.ok "session_1") c2Exec c2Upd c8Synth "goal" c2Plan
        fuel).isSome = true := by
  rintro ⟨fuel, h⟩
  have hloop : executePhasesLoop c2Exec c2Upd fuel c2Plan
      (logStep (logStep {} "Creating execution plan") "Beginning research phases")
      = none :=
    executePhasesLoop_stuck c2Exec c2Upd c2Plan c2Phase
      c2Msg [] [c2Cit] rfl fuel _ (by decide)
  have : executeResearch (.ok "session_1") c2Exec c2Upd c8Synth "goal" c2Plan fuel
      = none := by
    simp only [executeResearch]
    rw [hloop]
  rw [this] at h
  simp at h

/-- C8 (amended): `execute_research` never propagates an exception and is
structured whenever it returns — a raise in session creation yields the
failure dict with the error string, execution log and the partial findings
and citations accumulated before the failure (none yet at that point, and
nothing is discarded); and whenever the phase loop terminates, a success
result carries every accumulated finding, citation and phase result and the
final (possibly updated) plan.  (When a phase raises persistently the loop
never terminates and no result is produced — the counterexample.) -/
theorem C8_structured_result_and_partials (createSession : Except String String)
    (exec : Phase → PhaseOutcome)
    (updatePlan : Plan → List String → List String → Plan)
    (synthesize : List Finding → String) (researchGoal : String) (plan : Plan)
    (fuel : Nat) :
    (∀ e, createSession = .error e →
      executeResearch createSession exec updatePlan synthesize researchGoal plan fuel
        = some (.failure
            { error := e, execution_log := [], partial_findings := [],
              partial_citations := [], session_id := none }))
    ∧ (∀ sid, createSession = .ok sid →
        ∀ finalPlan st,
          executePhasesLoop exec updatePlan fuel plan
              (logStep (logStep {} "Creating execution plan")
                "Beginning research phases")
            = some (finalPlan, st) →
          ∃ r, executeResearch createSession exec updatePlan synthesize researchGoal
                plan fuel = some (.success r)
            ∧ r.findings = st.all_findings
            ∧ r.citations = st.all_citations
            ∧ r.phase_results = st.phase_results
            ∧ r.execution_plan = finalPlan) := by
  constructor
  · intro e he
    rw [he]
    rfl
  · intro sid hsid finalPlan st hloop
    have hmain : executeResearch createSession exec updatePlan synthesize researchGoal
        plan fuel
        = some (.success
          { research_goal := researchGoal, execution_plan := finalPlan,
            phase_results := st.phase_results,
            synthesis := synthesize st.all_findings,
            quality_check := finalQualityReview
              { goal := finalPlan.research_goal, findings := st.all_findings,
                citations := st.all_citations,
                phases_completed := st.completed_phases.length },
            findings := st.all_findings, citations := st.all_citations,
            execution_log := (logStep (logStep st "Synthesizing research findings")
              "Conducting final quality review").execution_log,
            session_id := some sid }) := by
      rw [hsid]
      simp only [executeResearch]
      rw [hloop]
      rfl
    exact ⟨_, hmain, rfl, rfl, rfl, rfl⟩

/-- Initial agent state after the two pre-loop log steps. -/
def c8InitState : AgentState :=
  logStep (logStep {} "Creating execution plan") "Beginning research phases"

/-- Final agent state of the C3 two-phase run started from `c8InitState`. -/
def c8FinalState : AgentState :=
  { completed_phases := ["phase_1", "phase_2"],
    all_findings := [c3Finding], all_citations := [],
    phase_results := [c3NoDocsResult, c3Result2],
    execution_log := [⟨"Creating execution plan", 0⟩,
      ⟨"Beginning research phases", 0⟩,
      ⟨"Executing phase: P1", 0⟩, ⟨"Executing phase: P2", 1⟩] }

/-- Witness for C8 at concrete inputs: a raised session creation yields the
exact failure dict, and a terminating run yields a success result carrying
the accumulated findings, citations and phase results. -/
theorem C8_structured_result_and_partials_witness :
    executeResearch (.error "db down") c3Exec c3Upd c8Synth "goal" c3Plan 3
      = some (.failure
          { error := "db down", execution_log := [],
            partial_findings := [], partial_citations := [], session_id := none })
    ∧ ∃ r, executeResearch (.ok "session_1") c3Exec c3Upd c8Synth "goal" c3Plan 3
        = some (.success r)
      ∧ r.findings = c8FinalState.all_findings
      ∧ r.citations = c8FinalState.all_citations
      ∧ r.phase_results = c8FinalState.phase_results
      ∧ r.execution_plan = c3Plan :=
  ⟨(C8_structured_result_and_partials (.error "db down") c3Exec c3Upd c8Synth
      "goal" c3Plan 3).1 "db down" rfl,
    (C8_structured_result_and_partials (.ok "session_1") c3Exec c3Upd c8Synth
      "goal" c3Plan 3).2 "session_1" rfl c3Plan c8FinalState (by decide)⟩

/-! ### Goal parser (`modules/goal_parser.py`) -/

/-- A subgoal dict as it may come out of JSON parsing: any key may be
missing (a missing key and JSON `null` are conflated as `none`). -/
structure RawSubgoal where
  id : Option Nat := none
  title : Option String := none
  description : Option String := none
  search_terms : Option (List String) := none
  priority : Option String := none
  expected_sources : Option (List String) := none
  deriving Repr, DecidableEq

/-- A parsed-goal dict as produced by JSON decoding, `_manual_parse` or
`_create_fallback_structure`; keys may be absent.  The impure `created_at`
timestamp is not modelled. -/
structure RawParsedGoal where
  main_goal : Option String := none
  research_domain : Option String := none
  time_scope : Option String := none
  subgoals : Option (List RawSubgoal) := none
  success_criteria : Option (List String) := none
  estimated_complexity : Option String := none
  total_subgoals : Option Nat := none
  deriving Repr, DecidableEq

/-- Stop-word set of `_generate_search_terms` (goal_parser.py lines 201-208). -/
def gpStopWords : List String :=
  ["the", "and", "for", "are", "but", "not", "you", "all", "can", "had",
   "her", "was", "one", "our", "out", "day", "get", "has", "him", "his",
   "how", "its", "may", "new", "now", "old", "see", "two", "way", "who",
   "boy", "did", "she", "use", "find", "any", "work", "part", "take",
   "know", "back", "good", "give", "most", "very", "research", "comprehensive",
   "conduct", "information", "data"]

/-- The deduplicated keyword list of `_generate_search_terms`. -/
def gpKeywords (description : String) : List String :=
  dedupKeepFirst ((regexWords (pyToLower description)).filter
    (fun w => !(gpStopWords.contains w) && decide (w.length > 2)))

/-- `GoalParser._generate_search_terms` (lines 192-231). -/
def generateSearchTerms (description : String) : List String :=
  if description = "" then ["research", "information"]
  else if (gpKeywords description).isEmpty then
    (if strContains (pyToLower description) "morocco" then
      ["morocco", "location", "geography", "africa", "country"]
    else if ["where", "location", "place", "country", "city"].any
        (fun geoTerm => strContains (pyToLower description) geoTerm) then
      (if ((regexWords (pyToLower description)).filter
          (fun w => decide (w.length > 3))).isEmpty then
        ["location", "geography", "place"]
      else ((regexWords (pyToLower description)).filter
          (fun w => decide (w.length > 3))).take 3 ++ ["location", "geography"])
    else ["information", "research", "facts"])
  else (gpKeywords description).take 5

/-- One iteration of the subgoal-enhancement loop of `_validate_and_enhance`
(lines 173-184): backfill id, priority and expected sources, and regenerate
`search_terms` when the key is missing or its value is empty. -/
def enhanceSubgoal (i : Nat) (sg : RawSubgoal) : RawSubgoal :=
  { sg with
    id := some (sg.id.getD (i + 1)),
    search_terms := some (match sg.search_terms with
      | none => generateSearchTerms (sg.description.getD "")
      | some [] => generateSearchTerms (sg.description.getD "")
      | some (t :: ts) => t :: ts),
    priority := some (sg.priority.getD "medium"),
    expected_sources := some (sg.expected_sources.getD
      ["academic papers", "websites", "reports"]) }

/-- The `for i, subgoal in enumerate(...)` loop of `_validate_and_enhance`. -/
def enhanceSubgoals (i : Nat) : List RawSubgoal → List RawSubgoal
  | [] => []
  | sg :: rest => enhanceSubgoal i sg :: enhanceSubgoals (i + 1) rest

/-- `_validate_and_enhance` (lines 163-190). -/
def validateAndEnhance (pg : RawParsedGoal) (originalGoal : String) : RawParsedGoal :=
  let subgoals := enhanceSubgoals 0 (pg.subgoals.getD [])
  { pg with
    subgoals := some subgoals,
    main_goal := some (pg.main_goal.getD originalGoal),
    total_subgoals := some subgoals.length }

/-- The loop state of `_manual_parse` (lines 109-152). -/
structure ManualParseState where
  main_goal : String
  subgoals : List RawSubgoal
  current : Option RawSubgoal
  in_subgoal : Bool

/-- The fresh subtask dict built at goal_parser.py lines 133-140. -/
def manualSubgoalFor (n : Nat) (line : String) : RawSubgoal :=
  { id := some n, title := some line, description := some "",
    search_terms := some [], priority := some "medium",
    expected_sources := some ["academic papers", "websites"] }

/-- Python `line.split(':', 1)[-1]` when `':' in line`, else `line`. -/
def afterFirstColon (s : String) : String :=
  if s.toList.contains ':' then ⟨(s.toList.dropWhile (fun c => c != ':')).tail⟩
  else s

/-- One line of the `_manual_parse` loop. -/
def manualParseStep (st : ManualParseState) (rawLine : String) : ManualParseState :=
  let line := pyStrip rawLine
  if line = "" then st
  else if ["main goal", "objective", "research goal"].any
      (fun ind => strContains (pyToLower line) ind) then
    { st with main_goal :=
        if strContains line ":" then pyStrip (afterFirstColon line) else line }
  else if ["subtask", "subgoal", "task"].any
      (fun ind => strContains (pyToLower line) ind) then
    let flushed := st.subgoals ++ (match st.current with
      | some c => [c]
      | none => [])
    { st with
      subgoals := flushed,
      current := some (manualSubgoalFor (flushed.length + 1) line),
      in_subgoal := true }
  else if st.in_subgoal then
    { st with current := st.current.map (fun c =>
        let d := c.description.getD ""
        { c with description := some (if d = "" then line else d ++ " " ++ line) }) }
  else st

/-- `GoalParser._manual_parse` (lines 109-161). -/
def manualParse (response : String) : RawParsedGoal :=
  let st := (pySplitLines response).foldl manualParseStep
    { main_goal := "", subgoals := [], current := none, in_subgoal := false }
  let subgoals := st.subgoals ++ (match st.current with
    | some c => [c]
    | none => [])
  { main_goal := some (if st.main_goal = "" then "Research the specified topic"
      else st.main_goal),
    research_domain := some "General", time_scope := some "recent",
    subgoals := some subgoals,
    success_criteria := some ["Comprehensive coverage", "Accurate citations"],
    estimated_complexity := some "moderate" }

/-- The single subtask of `_create_fallback_structure` (lines 240-247). -/
def fallbackSubgoal (goal : String) : RawSubgoal :=
  { id := some 1, title := some "Primary Research",
    description := some ("Conduct comprehensive research on: " ++ goal),
    search_terms := some (generateSearchTerms goal),
    priority := some "high",
    expected_sources := some ["academic papers", "websites", "reports"] }

/-- `GoalParser._create_fallback_structure` (lines 233-253). -/
def createFallbackStructure (goal : String) : RawParsedGoal :=
  { main_goal := some goal, research_domain := some "General",
    time_scope := some "recent",
    subgoals := some [fallbackSubgoal goal],
    success_criteria := some ["Comprehensive coverage", "Accurate information",
      "Proper citations"],
    estimated_complexity := some "moderate",
    total_subgoals := some 1 }

/-- The decomposer's model interaction for one `parse_goal` call:
`raised` models `generate_text` raising; `returned text json` models a
returned response, where `json = some g` means the `\{.*\}` regex found a
block that `json.loads` decoded into the goal dict `g`, and `json = none`
means no parseable JSON was found, so `_manual_parse text` runs.  (The JSON
decoder itself is external; the decoded dict is an oracle input.) -/
inductive DecomposerOutcome where
  | raised (msg : String)
  | returned (text : String) (json : Option RawParsedGoal)

/-- `GoalParser.parse_goal` (lines 23-58): on a raise, the fallback
structure; otherwise JSON or manual parsing followed by
`_validate_and_enhance` (total on these structured inputs, so the `except`
fallback is unreachable on the returned path). -/
def parseGoal (goal : String) (outcome : DecomposerOutcome) : RawParsedGoal :=
  match outcome with
  | .raised _ => createFallbackStructure goal
  | .returned text json =>
    validateAndEnhance (match json with
      | some g => g
      | none => manualParse text) goal

theorem generateSearchTerms_ne_nil (description : String) :
    generateSearchTerms description ≠ [] := by
  rw [generateSearchTerms]
  by_cases hd : description = ""
  · rw [if_pos hd]; simp
  · rw [if_neg hd]
    by_cases hk : (gpKeywords description).isEmpty
    · rw [if_pos hk]
      by_cases hm : strContains (pyToLower description) "morocco" = true
      · rw [if_pos hm]; simp
      · rw [if_neg hm]
        by_cases hg : (["where", "location", "place", "country", "city"].any
            (fun geoTerm => strContains (pyToLower description) geoTerm)) = true
        · rw [if_pos hg]
          by_cases hw : ((regexWords (pyToLower description)).filter
              (fun w => decide (w.length > 3))).isEmpty
          · rw [if_pos hw]; simp
          · rw [if_neg hw]; simp
        · rw [if_neg hg]; simp
    · rw [if_neg hk]
      cases hkk : gpKeywords description with
      | nil => rw [hkk] at hk; simp at hk
      | cons a l => simp [hkk]

theorem enhanceSubgoal_search_terms_ne_nil (i : Nat) (sg : RawSubgoal) :
    (enhanceSubgoal i sg).search_terms.getD [] ≠ [] := by
  rw [enhanceSubgoal]
  cases hts : sg.search_terms with
  | none => simpa using generateSearchTerms_ne_nil (sg.description.getD "")
  | some ts =>
    cases ts with
    | nil => simpa using generateSearchTerms_ne_nil (sg.description.getD "")
    | cons t rest => simp

theorem mem_enhanceSubgoals {sg : RawSubgoal} :
    ∀ (i : Nat) (sgs : List RawSubgoal), sg ∈ enhanceSubgoals i sgs →
      ∃ j x, sg = enhanceSubgoal j x := by
  intro i sgs
  induction sgs generalizing i with
  | nil => intro h; simp [enhanceSubgoals] at h
  | cons x rest ih =>
    intro h
    rw [enhanceSubgoals] at h
    rcases List.mem_cons.mp h with h | h
    · exact ⟨i, x, h⟩
    · exact ih (i + 1) h

/-- C7 counterexample: on the unparseable model response `"hello"` (no JSON
block, no `objective`/`subtask`/`task` keyword lines), `parse_goal` flows
through `_manual_parse`, which collects no subgoals, and
`_validate_and_enhance` does not add one: the output has zero subgoals, not
one — the single-subgoal fallback only runs when generation raises. -/
theorem C7_counterexample_unparseable_yields_zero_subgoals :
    ((parseGoal "Impact of AI on healthcare diagnostics in 2023-2024"
        (.returned "hello" none)).subgoals.getD []).length = 0 := by
  decide

/-- C7 (amended): every subgoal in `parse_goal`'s output has a non-empty
`search_terms` list, and a raised generation error yields exactly one
subgoal whose search terms are the (never-empty) keyword extraction of the
goal text; but an unparseable returned response may yield zero subgoals —
the at-least-one-subgoal guarantee holds only on the raised path. -/
theorem C7_subgoal_search_terms_nonempty (goal : String)
    (outcome : DecomposerOutcome) :
    (∀ sg ∈ (parseGoal goal outcome).subgoals.getD [],
      sg.search_terms.getD [] ≠ [])
    ∧ (∀ msg,
        (parseGoal goal (.raised msg)).subgoals.getD [] = [fallbackSubgoal goal]
        ∧ (fallbackSubgoal goal).search_terms.getD [] = generateSearchTerms goal
        ∧ generateSearchTerms goal ≠ []) := by
  constructor
  · intro sg hsg
    cases outcome with
    | raised msg =>
      simp only [parseGoal, createFallbackStructure, Option.getD_some] at hsg
      rcases List.mem_singleton.mp hsg with rfl
      simpa using generateSearchTerms_ne_nil goal
    | returned text json =>
      simp only [parseGoal, validateAndEnhance, Option.getD_some] at hsg
      obtain ⟨j, x, rfl⟩ := mem_enhanceSubgoals 0 _ hsg
      exact enhanceSubgoal_search_terms_ne_nil j x
  · intro msg
    exact ⟨rfl, rfl, generateSearchTerms_ne_nil goal⟩

/-- Witness for C7 at the scenario goal: on a raised generation error the
output is the single fallback subgoal, whose search terms are non-empty and
are the keywords of the goal text. -/
theorem C7_subgoal_search_terms_nonempty_witness :
    (∀ sg ∈ (parseGoal "Impact of AI on healthcare diagnostics in 2023-2024"
        (.raised "rate limited")).subgoals.getD [],
      sg.search_terms.getD [] ≠ [])
    ∧ (parseGoal "Impact of AI on healthcare diagnostics in 2023-2024"
        (.raised "rate limited")).subgoals.getD []
        = [fallbackSubgoal "Impact of AI on healthcare diagnostics in 2023-2024"]
    ∧ generateSearchTerms "Impact of AI on healthcare diagnostics in 2023-2024"
        = ["impact", "healthcare", "diagnostics"] := by
  have h := C7_subgoal_search_terms_nonempty
    "Impact of AI on healthcare diagnostics in 2023-2024" (.raised "rate limited")
  exact ⟨h.1, (h.2 "rate limited").1, by decide⟩

/-! ### Emergency mode (`modules/emergency_mode.py`) -/

/-- Whitespace-run collapsing of `_clean_text` (`re.sub(r'\s+', ' ', text)`);
`prevWs` records whether the previous character was whitespace. -/
def collapseWsAux (prevWs : Bool) : List Char → List Char
  | [] => []
  | c :: cs =>
    if c.isWhitespace then
      if prevWs then collapseWsAux true cs else ' ' :: collapseWsAux true cs
    else c :: collapseWsAux false cs

/-- The characters kept by `re.sub(r'[^\w\s\.\,\!\?\;\:\-\(\)]', '', text)`
(note: `%` is NOT in this set). -/
def emAllowedChar (c : Char) : Bool :=
  isWordChar c || c.isWhitespace ||
    ['.', ',', '!', '?', ';', ':', '-', '(', ')'].contains c

/-- `EmergencyMode._clean_text` (lines 103-109): collapse whitespace runs to
one space, delete disallowed characters, strip. -/
def cleanText (s : String) : String :=
  ⟨stripChars ((collapseWsAux false s.toList).filter emAllowedChar)⟩

def sentenceDelim (c : Char) : Bool := c == '.' || c == '!' || c == '?'

/-- `re.split(r'[.!?]+', text)`: pieces between maximal delimiter runs
(`skipping` = currently inside a delimiter run just after emitting). -/
def splitSentencesAux (skipping : Bool) (acc : List Char) :
    List Char → List (List Char)
  | [] => [acc.reverse]
  | c :: cs =>
    if sentenceDelim c then
      if skipping then splitSentencesAux true [] cs
      else acc.reverse :: splitSentencesAux true [] cs
    else splitSentencesAux false (c :: acc) cs

/-- `EmergencyMode._split_into_sentences` (lines 111-114). -/
def splitIntoSentences (s : String) : List String :=
  (((splitSentencesAux false [] s.toList).map
      (fun cs => pyStrip ⟨cs⟩)).filter (fun t => decide (t.length > 20)))

def keyFindingIndicators : List String :=
  ["found that", "discovered", "revealed", "showed", "demonstrated",
   "indicates", "suggests", "evidence", "research shows", "study found"]

def conclusionIndicators : List String :=
  ["conclude", "in conclusion", "therefore", "thus", "hence",
   "in summary", "overall", "finally", "results show"]

/-- `_extract_key_findings` (lines 116-130): sentences containing an
indicator substring (lowercased), at most 5 (the loop breaks after the
fifth). -/
def extractKeyFindings (sentences : List String) : List String :=
  (sentences.filter (fun s => keyFindingIndicators.any
    (fun ind => strContains (pyToLower s) ind))).take 5

/-- `_extract_conclusions` (lines 145-159): at most 3. -/
def extractConclusions (sentences : List String) : List String :=
  (sentences.filter (fun s => conclusionIndicators.any
    (fun ind => strContains (pyToLower s) ind))).take 3

def statUnits : List String := ["percent", "million", "billion", "thousand"]

/-- One anchored attempt of the statistics regex
`\d+\.?\d*\s*%|\d+\.?\d*\s*(percent|million|billion|thousand)` at the head
of `cs`: maximal digit run, optional single dot plus maximal digit run,
optional whitespace, then `%` or a unit word.  Greedy matching is complete
here: backtracking to a shorter digit run can only expose another digit,
never the required `%`/word. -/
def statMatchAt (cs : List Char) : Bool :=
  match cs with
  | [] => false
  | c :: _ =>
    if c.isDigit then
      let rest1 := cs.dropWhile Char.isDigit
      let rest2 := match rest1 with
        | '.' :: r => r.dropWhile Char.isDigit
        | _ => rest1
      let rest3 := rest2.dropWhile Char.isWhitespace
      (match rest3 with
       | '%' :: _ => true
       | _ => statUnits.any (fun u => startsWithList u.toList rest3))
    else false

/-- `re.search` of the statistics regex: an anchored match at some position. -/
def statSearch : List Char → Bool
  | [] => false
  | c :: cs => statMatchAt (c :: cs) || statSearch cs

/-- `_extract_statistics` (lines 132-143): at most 3. -/
def extractStatistics (sentences : List String) : List String :=
  (sentences.filter (fun s => statSearch (pyToLower s).toList)).take 3

/-- The `source_metadata` dict: `.get` keys used by the extractor (`type` is
renamed `stype`). -/
structure SourceMetadata where
  title : Option String := none
  url : Option String := none
  stype : Option String := none
  deriving Repr, DecidableEq

/-- The dict returned by `EmergencyMode.extract_key_information`
(the constant `emergency_extraction: True` marker is omitted). -/
structure EmergencyExtraction where
  source_title : String
  source_url : String
  source_type : String
  key_findings : List String
  relevant_facts : List String
  statistics : List String
  conclusions : List String
  confidence_level : String
  relevance_score : ℚ
  deriving Repr, DecidableEq

/-- `EmergencyMode.extract_key_information` (lines 20-43). -/
def emergencyExtractKeyInformation (content : String) (meta : SourceMetadata) :
    EmergencyExtraction :=
  let cleaned := cleanText content
  let sentences := splitIntoSentences cleaned
  { source_title := meta.title.getD "Unknown Source",
    source_url := meta.url.getD "",
    source_type := meta.stype.getD "web",
    key_findings := (extractKeyFindings sentences).take 3,
    relevant_facts := sentences.take 5,
    statistics := (extractStatistics sentences).take 2,
    conclusions := (extractConclusions sentences).take 2,
    confidence_level := "basic",
    relevance_score := mkRat 3 5 }

/-- C9 (failing behaviour): on the scenario content containing "the study
found that X increased by 20%", the emergency extractor's `key_findings` is
non-empty ("study found"/"found that" match indicators) but its
`statistics` list is EMPTY: `_clean_text` deletes the `%` character before
`_extract_statistics` looks for it, and no `percent`-style word is present,
so the claim's ≥ 1-statistics requirement fails on exactly the scenario
input. -/
theorem C9_emergency_statistics_empty_on_percent_sign :
    (emergencyExtractKeyInformation
        "the study found that X increased by 20%" {}).statistics = []
    ∧ (emergencyExtractKeyInformation
        "the study found that X increased by 20%" {}).key_findings
        = ["the study found that X increased by 20"] := by
  constructor <;> decide

/-! ### Citation engine (`modules/citation_engine.py`)

`create_bibliography` is modelled for the APA formatting path — the default
and config-validated style (`utils/config.py` line 22 defaults
`citation_style = "APA"`); the MLA/Chicago formatters differ only in the
formatted text (and read the wall clock), not in the dedup/count behaviour
under test. -/

/-- Python `a <= b` on strings: lexicographic by code point. -/
def lexLe : List Char → List Char → Bool
  | [], _ => true
  | _ :: _, [] => false
  | a :: as, b :: bs =>
    if a.toNat < b.toNat then true
    else if b.toNat < a.toNat then false
    else lexLe as bs

def pyStrLe (a b : String) : Bool := lexLe a.toList b.toList

/-- `_deduplicate_citations` (lines 419-444): drop a citation whose
(non-empty) url was already seen or whose (non-empty) lowercased title was
already seen; empty urls/titles are never compared or recorded (Python
truthiness of `''`). -/
def dedupCitationsAux (seenUrls seenTitles : List String) :
    List Citation → List Citation
  | [] => []
  | c :: cs =>
    if (c.url != "") && seenUrls.contains c.url then
      dedupCitationsAux seenUrls seenTitles cs
    else if (pyToLower c.title != "") && seenTitles.contains (pyToLower c.title) then
      dedupCitationsAux seenUrls seenTitles cs
    else
      c :: dedupCitationsAux
        (if c.url != "" then c.url :: seenUrls else seenUrls)
        (if pyToLower c.title != "" then pyToLower c.title :: seenTitles
         else seenTitles) cs

def deduplicateCitations (cs : List Citation) : List Citation :=
  dedupCitationsAux [] [] cs

/-- The `parts` list of `_format_apa_citation` (lines 307-339); the
`source_type == 'academic'` branch emits the same text as its else branch
and is collapsed. -/
def apaParts (c : Citation) : List String :=
  (match c.authors with
   | [] => []
   | [a] => [a]
   | a :: b :: rest =>
     if (a :: b :: rest).length ≤ 3 then
       [joinWith ", " ((a :: b :: rest).dropLast) ++ ", & "
         ++ (a :: b :: rest).getLastD ""]
     else [a ++ ", et al."])
  ++ (if c.date != "" then ["(" ++ c.date ++ ")"] else [])
  ++ (if c.title != "" then [c.title ++ "."] else [])
  ++ (if c.url != "" then ["Retrieved from " ++ c.url] else [])

/-- `_format_apa_citation`: `" ".join(parts)`. -/
def formatApaCitation (c : Citation) : String := joinWith " " (apaParts c)

/-- `create_bibliography` (lines 86-119), list of numbered entries: dedup,
stable sort by lowercased title (Python `sorted` is stable), format, keep
non-empty formatted strings. -/
def bibliographyEntries (cs : List Citation) : List String :=
  ((stableSort (fun a b => pyStrLe (pyToLower a.title) (pyToLower b.title))
      (deduplicateCitations cs)).map formatApaCitation).filter (fun f => f != "")

/-- The assembled bibliography text of `create_bibliography`. -/
def createBibliography (cs : List Citation) : String :=
  "## References (APA Style)\n\n" ++
    String.join ((bibliographyEntries cs).enum.map
      (fun p => toString (p.1 + 1) ++ ". " ++ p.2 ++ "\n\n"))

theorem string_data_append (a b : String) : (a ++ b).data = a.data ++ b.data := rfl

theorem string_append_ne_empty_left (a b : String) (ha : a ≠ "") :
    a ++ b ≠ "" := by
  intro h
  have hd := congrArg String.data h
  rw [string_data_append] at hd
  rcases List.append_eq_nil.mp hd with ⟨h1, _⟩
  apply ha
  cases a with
  | mk d => cases h1; rfl

theorem string_append_ne_empty_right (a b : String) (hb : b ≠ "") :
    a ++ b ≠ "" := by
  intro h
  have hd := congrArg String.data h
  rw [string_data_append] at hd
  rcases List.append_eq_nil.mp hd with ⟨_, h2⟩
  apply hb
  cases b with
  | mk d => cases h2; rfl

theorem joinWith_ne_empty (sep x : String) :
    ∀ l, x ∈ l → x ≠ "" → joinWith sep l ≠ "" := by
  intro l
  induction l with
  | nil => intro h _; exact absurd h (List.not_mem_nil x)
  | cons p rest ih =>
    intro hx hxe
    cases rest with
    | nil =>
      rcases List.mem_singleton.mp hx with rfl
      exact hxe
    | cons q rest' =>
      show p ++ sep ++ joinWith sep (q :: rest') ≠ ""
      rcases List.mem_cons.mp hx with rfl | hx2
      · exact string_append_ne_empty_left _ _ (string_append_ne_empty_left _ _ hxe)
      · exact string_append_ne_empty_right _ _ (ih hx2 hxe)

theorem formatApa_ne_empty_of_url (c : Citation) (h : c.url ≠ "") :
    formatApaCitation c ≠ "" := by
  have hmem : "Retrieved from " ++ c.url ∈ apaParts c := by
    rw [apaParts]
    refine List.mem_append.mpr (Or.inr ?_)
    rw [if_pos (bne_iff_ne.mpr h)]
    exact List.mem_singleton.mpr rfl
  exact joinWith_ne_empty " " _ _ hmem
    (string_append_ne_empty_left _ _ (by decide))

theorem formatApa_ne_empty_of_title (c : Citation) (h : c.title ≠ "") :
    formatApaCitation c ≠ "" := by
  have hmem : c.title ++ "." ∈ apaParts c := by
    rw [apaParts]
    refine List.mem_append.mpr (Or.inl (List.mem_append.mpr (Or.inr ?_)))
    rw [if_pos (bne_iff_ne.mpr h)]
    exact List.mem_singleton.mpr rfl
  exact joinWith_ne_empty " " _ _ hmem
    (string_append_ne_empty_right _ _ (by decide))

theorem dedupCitationsAux_drop_url (seenUrls seenTitles : List String)
    (c : Citation) (cs : List Citation)
    (h : ((c.url != "") && seenUrls.contains c.url) = true) :
    dedupCitationsAux seenUrls seenTitles (c :: cs)
      = dedupCitationsAux seenUrls seenTitles cs := by
  rw [dedupCitationsAux, if_pos h]

theorem dedupCitationsAux_drop_title (seenUrls seenTitles : List String)
    (c : Citation) (cs : List Citation)
    (hu : ((c.url != "") && seenUrls.contains c.url) = false)
    (ht : ((pyToLower c.title != "")
        && seenTitles.contains (pyToLower c.title)) = true) :
    dedupCitationsAux seenUrls seenTitles (c :: cs)
      = dedupCitationsAux seenUrls seenTitles cs := by
  rw [dedupCitationsAux, if_neg (by rw [hu]; decide), if_pos ht]

theorem dedupCitationsAux_keep (seenUrls seenTitles : List String)
    (c : Citation) (cs : List Citation)
    (hu : ((c.url != "") && seenUrls.contains c.url) = false)
    (ht : ((pyToLower c.title != "")
        && seenTitles.contains (pyToLower c.title)) = false) :
    dedupCitationsAux seenUrls seenTitles (c :: cs)
      = c :: dedupCitationsAux
          (if c.url != "" then c.url :: seenUrls else seenUrls)
          (if pyToLower c.title != "" then pyToLower c.title :: seenTitles
           else seenTitles) cs := by
  rw [dedupCitationsAux, if_neg (by rw [hu]; decide), if_neg (by rw [ht]; decide)]

/-! Concrete citations for the C10 counterexample: the same-titled pair has
the EMPTY title, which the dedup never records. -/

def c10A : Citation := { title := "Alpha", url := "http://a", content := "x" }
def c10B : Citation := { title := "Beta", url := "http://a", content := "y" }
def c10C : Citation := { title := "", url := "http://c", content := "z" }
def c10D : Citation := { title := "", url := "http://d", content := "w" }

/-- C10 counterexample: the four citations satisfy the claim's conditions
(two with the same url but different content; two with different urls but
identical lowercased title — here the empty string; urls/titles otherwise
distinct across the pairs), yet the bibliography has 3 numbered entries, not
2: `_deduplicate_citations` treats an empty title as absent and never
records or compares it. -/
theorem C10_counterexample_empty_title_three_entries :
    c10A.url = c10B.url ∧ c10A.content ≠ c10B.content
    ∧ c10C.url ≠ c10D.url ∧ pyToLower c10C.title = pyToLower c10D.title
    ∧ (bibliographyEntries [c10A, c10B, c10C, c10D]).length = 3 := by
  refine ⟨rfl, by decide, by decide, rfl, by decide⟩

/-- C10 (amended): for four citations `[c1, c2, c3, c4]` where `c1`,`c2`
share a NON-EMPTY url but differ in content, `c3`,`c4` have different urls
but an identical NON-EMPTY lowercased title, and urls and lowercased titles
are otherwise distinct across the pairs, `create_bibliography` outputs
exactly 2 numbered entries.  (The non-emptiness conditions are forced by the
counterexample: the dedup skips empty urls and titles.) -/
theorem C10_bibliography_dedup_two_entries (c1 c2 c3 c4 : Citation)
    (hurl : c1.url = c2.url) (hurlne : c1.url ≠ "")
    (hcontent : c1.content ≠ c2.content)
    (htitle : pyToLower c3.title = pyToLower c4.title)
    (htne : pyToLower c3.title ≠ "")
    (hu34 : c3.url ≠ c4.url)
    (hu31 : c3.url ≠ c1.url) (hu41 : c4.url ≠ c1.url)
    (ht31 : pyToLower c3.title ≠ pyToLower c1.title) :
    (bibliographyEntries [c1, c2, c3, c4]).length = 2 := by
  have nu1 : (c1.url != "") = true := bne_iff_ne.mpr hurlne
  have nu2 : (c2.url != "") = true := by rw [← hurl]; exact nu1
  have nt3 : (pyToLower c3.title != "") = true := bne_iff_ne.mpr htne
  have nt4 : (pyToLower c4.title != "") = true := by rw [← htitle]; exact nt3
  have b21 : (c2.url == c1.url) = true := beq_iff_eq.mpr hurl.symm
  have b31 : (c3.url == c1.url) = false := beq_eq_false_iff_ne.mpr hu31
  have b41 : (c4.url == c1.url) = false := beq_eq_false_iff_ne.mpr hu41
  have b43 : (c4.url == c3.url) = false := beq_eq_false_iff_ne.mpr (Ne.symm hu34)
  have t31 : (pyToLower c3.title == pyToLower c1.title) = false :=
    beq_eq_false_iff_ne.mpr ht31
  have t43 : (pyToLower c4.title == pyToLower c3.title) = true :=
    beq_iff_eq.mpr htitle.symm
  have hdedup : deduplicateCitations [c1, c2, c3, c4] = [c1, c3] := by
    rw [deduplicateCitations,
      dedupCitationsAux_keep [] [] c1 _ (by simp [List.contains, List.elem])
        (by simp [List.contains, List.elem]),
      if_pos nu1,
      dedupCitationsAux_drop_url _ _ c2 _
        (by simp [List.contains, List.elem, nu2, b21]),
      dedupCitationsAux_keep _ _ c3 _
        (by simp [List.contains, List.elem, b31])
        (by cases hb : (pyToLower c1.title != "") <;>
          simp [hb, List.contains, List.elem, t31]),
      if_pos nt3,
      dedupCitationsAux_drop_title _ _ c4 _
        (by cases hb2 : (c3.url != "") <;>
          simp [hb2, List.contains, List.elem, b43, b41])
        (by simp [List.contains, List.elem, nt4, t43])]
    rfl
  have hne1 := formatApa_ne_empty_of_url c1 hurlne
  have htit3 : c3.title ≠ "" := fun h => htne (by rw [h]; rfl)
  have hne3 := formatApa_ne_empty_of_title c3 htit3
  rw [bibliographyEntries, hdedup]
  have hstable : stableSort
      (fun a b => pyStrLe (pyToLower a.title) (pyToLower b.title)) [c1, c3]
      = if pyStrLe (pyToLower c1.title) (pyToLower c3.title) then [c1, c3]
        else [c3, c1] := by
    rw [stableSort, stableSort, stableSort, insertSorted, insertSorted,
      insertSorted]
  rw [hstable]
  by_cases hle : pyStrLe (pyToLower c1.title) (pyToLower c3.title) = true
  · rw [if_pos hle]
    simp [List.filter, bne_iff_ne.mpr hne1, bne_iff_ne.mpr hne3]
  · rw [if_neg hle]
    simp [List.filter, bne_iff_ne.mpr hne1, bne_iff_ne.mpr hne3]

/-! Concrete citations for the C10 witness: a same-url pair and a
same-lowercased-title pair with non-empty values. -/

def c10W1 : Citation := { title := "Alpha", url := "http://a", content := "x" }
def c10W2 : Citation := { title := "Beta", url := "http://a", content := "y" }
def c10W3 : Citation := { title := "Gamma", url := "http://c", content := "z" }
def c10W4 : Citation := { title := "GAMMA", url := "http://d", content := "w" }

/-- Witness for C10 at concrete citations: `"Gamma"`/`"GAMMA"` share a
lowercased title, `c10W1`/`c10W2` share a url; exactly 2 entries remain. -/
theorem C10_bibliography_dedup_two_entries_witness :
    (bibliographyEntries [c10W1, c10W2, c10W3, c10W4]).length = 2 :=
  C10_bibliography_dedup_two_entries c10W1 c10W2 c10W3 c10W4 rfl (by decide)
    (by decide) (by decide) (by decide) (by decide) (by decide) (by decide)
    (by decide)

end ResearchAutomator
